import Mathlib

/-! ReWear clothing-exchange backend: swap settlement.

A shallow embedding of the swap routes of `src/server.js`
(`POST /api/swaps`, lines 668-710, and `PUT /api/swaps/:id`, lines 712-763)
together with the three in-memory arrays they read and write
(`users`, `clothingItems`, `swapRequests`, lines 60-363), of the listing query
(`GET /api/items`, lines 540-561) and of the deletion of a listing
(`DELETE /api/items/:id`, lines 630-657).

Modelling conventions.

* The three global arrays become the fields of `Store`; a route handler is a
  function from the store before the request to an `Outcome`: the store after
  the request and the JSON response.
* `xs.find(p)` and `xs.findIndex(p)` are `find` and `findIndex`; `undefined`
  and `-1` are `none`.  A write through an object reference obtained from
  `find`, or through `xs[i]`, is `updateAt` at the index of that object.
* Point amounts are JavaScript numbers holding integers; they are `Int` here
  (exact as long as the values stay in the safe-integer range).
* A `TypeError` raised inside a handler's `try` block is caught by its `catch`
  clause, which answers `500 Server error`: outcome `ApiError.serverError`.
* `uuidv4()` and the current date are inputs of the handler (`newId`, `today`).
* `Reachable` collects the stores that requests to the writing routes can produce from the
  boot data; an identifier handed out by `uuidv4()` for a new listing is taken to be new.
  Statements about "every store state" are made for the reachable stores.
-/

namespace ReWear

/-! ## JavaScript helpers -/

/-- JavaScript `xs.find(p)`: the first element satisfying `p`; `none` is `undefined`. -/
def find {α : Type} (p : α → Bool) : List α → Option α
  | [] => none
  | x :: xs => if p x then some x else find p xs

/-- JavaScript `xs.findIndex(p)`: index of the first element satisfying `p`; `none` is `-1`. -/
def findIndex {α : Type} (p : α → Bool) : List α → Option Nat
  | [] => none
  | x :: xs => if p x then some 0 else (findIndex p xs).map (· + 1)

/-- The write `xs[i] = f(xs[i])` on an array held in place (no effect when `i` is out of range). -/
def updateAt {α : Type} (f : α → α) : Nat → List α → List α
  | _, [] => []
  | 0, x :: xs => f x :: xs
  | i + 1, x :: xs => x :: updateAt f i xs

/-- The write `x.field = ...` through the reference returned by `xs.find(p)`, when there is one. -/
def updateAtOpt {α : Type} (f : α → α) (i : Option Nat) (xs : List α) : List α :=
  match i with
  | some k => updateAt f k xs
  | none => xs

/-- JavaScript `n || d` on an optional integer: `undefined`, `null` and `0` are falsy. -/
def orInt (n : Option Int) (d : Int) : Int :=
  match n with
  | some v => if v = 0 then d else v
  | none => d

/-- Truthiness of an optional string: `undefined`, `null` and `''` are falsy. -/
def truthy (s : Option String) : Bool :=
  match s with
  | some v => v != ""
  | none => false

/-- JavaScript `s || null` on an optional string. -/
def orNull (s : Option String) : Option String :=
  if truthy s then s else none

/-- JavaScript `s || ''` on an optional string. -/
def orEmpty (s : Option String) : String :=
  match s with
  | some v => v
  | none => ""

/-! ## Data model (server.js lines 60-363) -/

/-- An element of the `users` array (fields the swap routes touch). -/
structure User where
  id : String
  name : String
  points : Int
  swapCount : Int
deriving DecidableEq, Repr

/-- An element of the `clothingItems` array. -/
structure ClothingItem where
  id : String
  title : String
  description : String
  category : String
  tags : List String
  uploaderId : String
  pointsValue : Int
  isAvailable : Bool
  isApproved : Bool
deriving DecidableEq, Repr

/-- An element of the `swapRequests` array (built at lines 690-703). -/
structure SwapRequest where
  id : String
  requesterId : String
  requesterName : String
  itemId : String
  itemTitle : String
  offeredItemId : Option String
  offeredItemTitle : Option String
  usePoints : Bool
  pointsOffered : Int
  status : String
  createdDate : String
  message : String
deriving DecidableEq, Repr

/-- The in-memory data storage: the three module-level arrays. -/
structure Store where
  users : List User
  clothingItems : List ClothingItem
  swapRequests : List SwapRequest
deriving DecidableEq, Repr

/-- The failure responses of the two swap routes. -/
inductive ApiError where
  /-- Status 404, `Item not found`. -/
  | itemNotFound
  /-- Status 400, `Item is not available`. -/
  | itemNotAvailable
  /-- Status 400, `Cannot request your own item`. -/
  | ownItem
  /-- Status 400, `Insufficient points`. -/
  | insufficientPoints
  /-- Status 404, `Swap request not found`. -/
  | swapNotFound
  /-- Status 403, `Not authorized`. -/
  | notAuthorized
  /-- Status 500, `Server error` (the `catch` clause). -/
  | serverError
deriving DecidableEq, Repr

/-- The JSON response of a swap route: the swap record on success, a failure otherwise. -/
inductive Response where
  | ok (swap : SwapRequest)
  | fail (e : ApiError)
deriving DecidableEq, Repr

/-- What a handler leaves behind: the store after the request and the response sent. -/
structure Outcome where
  store : Store
  response : Response
deriving DecidableEq, Repr

/-- The body of `POST /api/swaps` (line 670). -/
structure SwapBody where
  itemId : String
  offeredItemId : Option String
  usePoints : Bool
  pointsOffered : Option Int
  message : Option String
deriving DecidableEq, Repr

/-! ## `POST /api/swaps` (lines 668-710) -/

/-- The record `newSwapRequest` of lines 690-703. -/
def newSwapRequest (s : Store) (userId : String) (user : User) (item : ClothingItem)
    (b : SwapBody) (newId today : String) : SwapRequest :=
  { id := newId
    requesterId := userId
    requesterName := user.name
    itemId := b.itemId
    itemTitle := item.title
    offeredItemId := orNull b.offeredItemId
    offeredItemTitle :=
      if truthy b.offeredItemId then
        (find (fun i => some i.id == b.offeredItemId) s.clothingItems).map (·.title)
      else none
    usePoints := b.usePoints
    pointsOffered := orInt b.pointsOffered item.pointsValue
    status := "pending"
    createdDate := today
    message := orEmpty b.message }

/-- The handler of `POST /api/swaps`; `userId` is `req.user.id`. -/
def proposeSwap (s : Store) (userId : String) (b : SwapBody) (newId today : String) : Outcome :=
  let user := find (fun u => u.id == userId) s.users
  match find (fun i => i.id == b.itemId) s.clothingItems with
  | none => ⟨s, .fail .itemNotFound⟩
  | some item =>
    if !item.isAvailable then ⟨s, .fail .itemNotAvailable⟩
    else if item.uploaderId == userId then ⟨s, .fail .ownItem⟩
    else
      match user with
      | none =>
        -- `user.points` (line 686) or `user.name` (line 693) throws on `undefined`
        ⟨s, .fail .serverError⟩
      | some u =>
        if b.usePoints && decide (u.points < orInt b.pointsOffered item.pointsValue) then
          ⟨s, .fail .insufficientPoints⟩
        else
          let r := newSwapRequest s userId u item b newId today
          ⟨{ s with swapRequests := s.swapRequests ++ [r] }, .ok r⟩

/-! ## `PUT /api/swaps/:id` (lines 712-763) -/

/-- The points transfer of lines 731-741, on the `users` array. -/
def transferPoints (users : List User) (swap : SwapRequest) (item : ClothingItem) : List User :=
  let requester := findIndex (fun u => u.id == swap.requesterId) users
  let owner := findIndex (fun u => u.id == item.uploaderId) users
  match requester, owner with
  | some r, some o =>
    let u1 := updateAt (fun u => { u with points := u.points - swap.pointsOffered }) r users
    let u2 := updateAt (fun u => { u with points := u.points + swap.pointsOffered }) o u1
    let u3 := updateAt (fun u => { u with swapCount := u.swapCount + 1 }) r u2
    updateAt (fun u => { u with swapCount := u.swapCount + 1 }) o u3
  | _, _ => users

/-- The assignment `.isAvailable = false` on an item (lines 746 and 753). -/
def markUnavailable (i : ClothingItem) : ClothingItem :=
  { i with isAvailable := false }

/-- Lines 743-747: mark the target item as unavailable. -/
def markItem (items : List ClothingItem) (swap : SwapRequest) : List ClothingItem :=
  updateAtOpt markUnavailable (findIndex (fun i => i.id == swap.itemId) items) items

/-- Lines 749-755: mark the offered item as unavailable if there is one. -/
def markOffered (items : List ClothingItem) (swap : SwapRequest) : List ClothingItem :=
  if truthy swap.offeredItemId then
    updateAtOpt markUnavailable (findIndex (fun i => some i.id == swap.offeredItemId) items) items
  else items

/-- The branch `status === 'accepted'` of lines 729-756. -/
def acceptSwap (s : Store) (swap : SwapRequest) (item : ClothingItem) : Store :=
  let users := if swap.usePoints then transferPoints s.users swap item else s.users
  let items := markOffered (markItem s.clothingItems swap) swap
  { s with users := users, clothingItems := items }

/-- The handler of `PUT /api/swaps/:id`; `userId` is `req.user.id`, `swapId` is
`req.params.id` and `status` is `req.body.status`. -/
def decideSwap (s : Store) (userId swapId status : String) : Outcome :=
  match findIndex (fun w => w.id == swapId) s.swapRequests with
  | none => ⟨s, .fail .swapNotFound⟩
  | some swapIndex =>
    match s.swapRequests[swapIndex]? with
    | none =>
      -- `swap.itemId` (line 722) throws on `undefined`
      ⟨s, .fail .serverError⟩
    | some swap =>
      match find (fun i => i.id == swap.itemId) s.clothingItems with
      | none =>
        -- `item.uploaderId` (line 725) throws on `undefined`
        ⟨s, .fail .serverError⟩
      | some item =>
        if item.uploaderId != userId then ⟨s, .fail .notAuthorized⟩
        else
          let s1 := if status == "accepted" then acceptSwap s swap item else s
          let swaps := updateAt (fun w => { w with status := status }) swapIndex s1.swapRequests
          match swaps[swapIndex]? with
          | none =>
            -- the write of line 758 throws on `undefined`
            ⟨s1, .fail .serverError⟩
          | some updated => ⟨{ s1 with swapRequests := swaps }, .ok updated⟩

/-- The store after the `status === 'accepted'` test of lines 729-756. -/
def afterAccept (s : Store) (sw : SwapRequest) (it : ClothingItem) (status : String) : Store :=
  if status == "accepted" then acceptSwap s sw it else s

/-! ## Observations on a store -/

/-- The point balance of the user record that `users.find` returns for `uid` (0 if none). -/
def balance (users : List User) (uid : String) : Int :=
  match find (fun u => u.id == uid) users with
  | some u => u.points
  | none => 0

/-- The swap counter of the user record that `users.find` returns for `uid` (0 if none). -/
def swapCountOf (users : List User) (uid : String) : Int :=
  match find (fun u => u.id == uid) users with
  | some u => u.swapCount
  | none => 0

/-! ## Concrete stores used in the examples -/

/-- An item owned by `owner` with the given valuation, available and approved. -/
def mkItem (id owner : String) (value : Int) : ClothingItem :=
  { id := id, title := "Vintage Denim Jacket", description := "Classic blue denim jacket",
    category := "outerwear", tags := ["vintage", "denim"], uploaderId := owner,
    pointsValue := value, isAvailable := true, isApproved := true }

/-- A points swap for item `item` by `requester`, as `POST /api/swaps` stores it. -/
def mkPointsSwap (id requester item : String) (offered : Int) : SwapRequest :=
  { id := id, requesterId := requester, requesterName := "Bob", itemId := item,
    itemTitle := "Vintage Denim Jacket", offeredItemId := none, offeredItemTitle := none,
    usePoints := true, pointsOffered := offered, status := "pending",
    createdDate := "2024-02-01", message := "" }

/-- User A (balance 100) has listed item X (valuation 75); user B has balance 200. -/
def exampleStore : Store :=
  { users := [⟨"A", "Ann", 100, 0⟩, ⟨"B", "Bob", 200, 0⟩]
    clothingItems := [mkItem "X" "A" 75]
    swapRequests := [] }

/-- The store `exampleStore` after B has proposed a points swap for X offering 75 points. -/
def exampleProposed : Store :=
  (proposeSwap exampleStore "B" ⟨"X", none, true, some 75, none⟩ "s1" "2024-02-01").store

/-- An item-for-item swap: `B` requests `X` and offers `Y`; `Z` is a third item. -/
def itemSwapStore : Store :=
  { users := [⟨"A", "Ann", 100, 0⟩, ⟨"B", "Bob", 200, 0⟩]
    clothingItems := [mkItem "X" "A" 75, mkItem "Y" "B" 60, mkItem "Z" "A" 40]
    swapRequests :=
      [{ mkPointsSwap "s2" "B" "X" 75 with
          offeredItemId := some "Y", offeredItemTitle := some "Vintage Denim Jacket",
          usePoints := false }] }

/-- User A owns item X, which is no longer available. -/
def takenStore : Store :=
  { users := [⟨"A", "Ann", 100, 0⟩]
    clothingItems := [markUnavailable (mkItem "X" "A" 75)]
    swapRequests := [] }

/-- User B has balance -5; item X of user A carries the valuation -10. -/
def debtStore : Store :=
  { users := [⟨"A", "Ann", 100, 0⟩, ⟨"B", "Bob", -5, 0⟩]
    clothingItems := [mkItem "X" "A" (-10)]
    swapRequests := [] }

/-! ## The validation order of the specification (section 4.1) -/

/-- The first of the four precondition checks of `proposeSwap` that fails, in the order the
specification lists them: (a) the target item exists, (b) it is available, (c) its owner is
not the requester, (d) if `usePoints`, the requester's balance is at least the points offered
or, by default, the item's valuation.  `none` when all four checks pass. -/
def firstFailedCheck (item : Option ClothingItem) (requesterId : String)
    (requesterBalance : Int) (usePoints : Bool) (pointsOffered : Option Int) :
    Option ApiError :=
  match item with
  | none => some .itemNotFound
  | some it =>
    if it.isAvailable = false then some .itemNotAvailable
    else if it.uploaderId = requesterId then some .ownItem
    else if usePoints = true ∧ ¬ (requesterBalance ≥ orInt pointsOffered it.pointsValue) then
      some .insufficientPoints
    else none

/-! ## Sequences of swap operations -/

/-- A request to one of the two swap routes. -/
inductive Op where
  | propose (userId : String) (b : SwapBody) (newId today : String)
  | decide (userId swapId status : String)
deriving DecidableEq, Repr

/-- The store after one request. -/
def step (s : Store) : Op → Store
  | .propose userId b newId today => (proposeSwap s userId b newId today).store
  | .decide userId swapId status => (decideSwap s userId swapId status).store

/-- The store after a sequence of requests, served one after the other. -/
def run (s : Store) (ops : List Op) : Store :=
  ops.foldl step s

/-- All point balances of a store are non-negative. -/
def balancesNonneg (s : Store) : Prop :=
  ∀ u ∈ s.users, 0 ≤ u.points

instance (s : Store) : Decidable (balancesNonneg s) :=
  inferInstanceAs (Decidable (∀ u ∈ s.users, 0 ≤ u.points))

/-- The seed data of lines 60-113 (the admin user and the first two listings) together with
one registered user, who starts with 100 points (line 444). -/
def seedStore : Store :=
  { users := [⟨"1", "Admin User", 1000, 0⟩, ⟨"u2", "Bob", 100, 0⟩]
    clothingItems :=
      [{ id := "1", title := "Vintage Denim Jacket",
         description := "Classic blue denim jacket from the 90s.", category := "outerwear",
         tags := ["vintage", "denim", "casual", "90s"], uploaderId := "1", pointsValue := 75,
         isAvailable := true, isApproved := true },
       { id := "2", title := "Floral Summer Dress",
         description := "Beautiful floral midi dress perfect for summer occasions.",
         category := "dresses", tags := ["floral", "summer", "midi", "feminine"],
         uploaderId := "1", pointsValue := 90, isAvailable := true, isApproved := true }]
    swapRequests := [] }

/-- The registered user asks for both listings against points (no amount given, so the
valuations 75 and 90 apply); the admin, who owns them, accepts both requests. -/
def overspend : List Op :=
  [.propose "u2" ⟨"1", none, true, none, none⟩ "s1" "2024-02-01",
   .propose "u2" ⟨"2", none, true, none, none⟩ "s2" "2024-02-01",
   .decide "1" "s1" "accepted",
   .decide "1" "s2" "accepted"]

/-! ## `GET /api/items` (lines 540-561) -/

/-- JavaScript `s.includes(t)` on character lists: `t` occurs in `s` at some position. -/
def includesChars (t : List Char) : List Char → Bool
  | [] => t.isEmpty
  | c :: cs => t.isPrefixOf (c :: cs) || includesChars t cs

/-- JavaScript `s.includes(t)`. -/
def includes (s t : String) : Bool :=
  includesChars t.data s.data

/-- The query string of `GET /api/items` (line 541); an absent parameter is `none`. -/
structure ItemQuery where
  category : Option String
  search : Option String
  approved : Option String
deriving DecidableEq, Repr

/-- The test of lines 549-553: the lower-cased search text occurs in the lower-cased title,
in the lower-cased description or in one of the lower-cased tags. -/
def matchesSearch (toLowerCase : String → String) (search : String) (item : ClothingItem) :
    Bool :=
  includes (toLowerCase item.title) (toLowerCase search) ||
  includes (toLowerCase item.description) (toLowerCase search) ||
  item.tags.any (fun tag => includes (toLowerCase tag) (toLowerCase search))

/-- The handler of `GET /api/items`, on the array `clothingItems`; the built-in
`String.prototype.toLowerCase` is a parameter. -/
def listItems (toLowerCase : String → String) (clothingItems : List ClothingItem)
    (q : ItemQuery) : List ClothingItem :=
  let filteredItems := clothingItems
  let filteredItems :=
    if truthy q.category then filteredItems.filter (fun item => some item.category == q.category)
    else filteredItems
  let filteredItems :=
    match q.search with
    | some search =>
      if search != "" then filteredItems.filter (matchesSearch toLowerCase search)
      else filteredItems
    | none => filteredItems
  match q.approved with
  | some approved => filteredItems.filter (fun item => item.isApproved == (approved == "true"))
  | none => filteredItems

/-- Lower-casing of the letters `A`-`Z`, which is what `toLowerCase` does on ASCII text. -/
def asciiLower (s : String) : String :=
  ⟨s.data.map Char.toLower⟩

/-- What the specification says an item must satisfy to be listed: every supplied filter
holds.  The category equals the given one; the lower-cased search text is a substring of the
lower-cased title, of the lower-cased description or of at least one lower-cased tag; the
approval flag matches the approval filter.  A filter is supplied when its query parameter is
present. -/
def satisfiesFilters (toLowerCase : String → String) (q : ItemQuery) (item : ClothingItem) :
    Prop :=
  (∀ c, q.category = some c → item.category = c) ∧
  (∀ t, q.search = some t →
    (toLowerCase t).data <:+: (toLowerCase item.title).data ∨
    (toLowerCase t).data <:+: (toLowerCase item.description).data ∨
    ∃ tag ∈ item.tags, (toLowerCase t).data <:+: (toLowerCase tag).data) ∧
  (∀ a, q.approved = some a → (item.isApproved = true ↔ a = "true"))

/-- The query the handler acts on: a category given as the empty string is dropped by the
test `if (category)` of line 544. -/
def ignoreEmptyCategory (q : ItemQuery) : ItemQuery :=
  { q with category := orNull q.category }

/-- The three tests of `listItems` folded into one predicate. -/
def passesAll (toLowerCase : String → String) (q : ItemQuery) (item : ClothingItem) : Bool :=
  (if truthy q.category then some item.category == q.category else true) &&
  ((match q.search with
    | some t => if t != "" then matchesSearch toLowerCase t item else true
    | none => true) &&
  (match q.approved with
    | some a => item.isApproved == (a == "true")
    | none => true))

/-- The catalogue of three listings used in the search example. -/
def searchCatalog : List ClothingItem :=
  [{ id := "1", title := "Vintage Denim Jacket",
     description := "Classic blue denim jacket from the 90s.", category := "outerwear",
     tags := ["vintage", "denim", "casual", "90s"], uploaderId := "1", pointsValue := 75,
     isAvailable := true, isApproved := true },
   { id := "2", title := "Floral Summer Dress",
     description := "Beautiful floral midi dress perfect for summer occasions.",
     category := "dresses", tags := ["floral", "summer", "midi", "feminine"],
     uploaderId := "1", pointsValue := 90, isAvailable := true, isApproved := true },
   { id := "5", title := "High-Waisted Jeans",
     description := "Dark wash high-waisted jeans, DENIM with great stretch.",
     category := "bottoms", tags := ["jeans", "high-waisted"], uploaderId := "1",
     pointsValue := 65, isAvailable := true, isApproved := false }]

/-! ## `DELETE /api/items/:id` (lines 630-657) -/

/-- The handler of `DELETE /api/items/:id`; `userId` and `isAdmin` are `req.user.id` and
`req.user.isAdmin`.  The result is the store after the request and the failure answered, if
any.  Removing the item's image files touches the disk only and is left out. -/
def deleteItem (s : Store) (userId : String) (isAdmin : Bool) (itemId : String) :
    Store × Option ApiError :=
  match findIndex (fun i => i.id == itemId) s.clothingItems with
  | none => (s, some .itemNotFound)
  | some itemIndex =>
    match s.clothingItems[itemIndex]? with
    | none =>
      -- `clothingItems[itemIndex].uploaderId` (line 639) throws on `undefined`
      (s, some .serverError)
    | some item =>
      if item.uploaderId != userId && !isAdmin then (s, some .notAuthorized)
      else ({ s with clothingItems := s.clothingItems.eraseIdx itemIndex }, none)

/-- The store reached from `seedStore` when the registered user has asked for listing `1`
against points and the admin, who owns the listing, has then deleted it. -/
def deletedStore : Store :=
  (deleteItem
    (proposeSwap seedStore "u2" ⟨"1", none, true, none, none⟩ "s1" "2024-02-01").store
    "1" true "1").1

/-- Users A and B, item X of A and item Y of B. -/
def comboStore : Store :=
  { users := [⟨"A", "Ann", 100, 0⟩, ⟨"B", "Bob", 200, 0⟩]
    clothingItems := [mkItem "X" "A" 75, mkItem "Y" "B" 60]
    swapRequests := [] }

/-- The body by which B asks for X offering both 75 points and the item Y. -/
def comboBody : SwapBody :=
  ⟨"X", some "Y", true, some 75, none⟩

/-- The store `comboStore` after B's request `comboBody` has been recorded. -/
def comboProposed : Store :=
  (proposeSwap comboStore "B" comboBody "s1" "2024-02-01").store

/-- The record that `comboBody` creates. -/
def comboSwap : SwapRequest :=
  { mkPointsSwap "s1" "B" "X" 75 with
      offeredItemId := some "Y", offeredItemTitle := some "Vintage Denim Jacket" }

/-! ## The stores the server can reach -/

/-- The initial value of `clothingItems` (lines 75-361). -/
def bootItems : List ClothingItem :=
  [{ id := "1", title := "Vintage Denim Jacket",
     description := "Classic blue denim jacket from the 90s. Perfectly worn-in with beautiful fading. Great for layering!",
     category := "outerwear", tags := ["vintage", "denim", "casual", "90s"], uploaderId := "1",
     pointsValue := 75, isAvailable := true, isApproved := true },
   { id := "2", title := "Floral Summer Dress",
     description := "Beautiful floral midi dress perfect for summer occasions. Lightweight and comfortable with a flattering fit.",
     category := "dresses", tags := ["floral", "summer", "midi", "feminine"], uploaderId := "1",
     pointsValue := 90, isAvailable := true, isApproved := true },
   { id := "3", title := "Classic White Sneakers",
     description := "Clean white leather sneakers. Minimal wear, perfect for everyday casual looks.",
     category := "shoes", tags := ["white", "sneakers", "casual", "leather"], uploaderId := "1",
     pointsValue := 60, isAvailable := true, isApproved := true },
   { id := "4", title := "Wool Blend Coat",
     description := "Elegant wool blend coat in camel color. Perfect for fall and winter. Classic tailored fit.",
     category := "outerwear", tags := ["wool", "coat", "winter", "elegant"], uploaderId := "1",
     pointsValue := 120, isAvailable := true, isApproved := true },
   { id := "5", title := "High-Waisted Jeans",
     description := "Dark wash high-waisted jeans with great stretch. Flattering fit for all body types.",
     category := "bottoms", tags := ["jeans", "high-waisted", "dark-wash", "stretch"], uploaderId := "1",
     pointsValue := 65, isAvailable := true, isApproved := true },
   { id := "6", title := "Silk Scarf Collection",
     description := "Set of 3 beautiful silk scarves in various patterns. Perfect for adding elegance to any outfit.",
     category := "accessories", tags := ["silk", "scarf", "accessories", "elegant"], uploaderId := "1",
     pointsValue := 45, isAvailable := true, isApproved := true },
   { id := "7", title := "Red Plaid Shirt",
     description := "Trendy red plaid shirt, soft cotton, perfect for layering or wearing alone.",
     category := "tops", tags := ["plaid", "shirt", "red", "cotton"], uploaderId := "1",
     pointsValue := 55, isAvailable := true, isApproved := true },
   { id := "8", title := "Black Leather Boots",
     description := "Sturdy black leather boots, lightly worn, great for winter.",
     category := "shoes", tags := ["boots", "leather", "black", "winter"], uploaderId := "1",
     pointsValue := 80, isAvailable := true, isApproved := true },
   { id := "9", title := "Striped Maxi Dress",
     description := "Colorful striped maxi dress, flowy and comfortable for summer.",
     category := "dresses", tags := ["striped", "dress", "maxi", "summer"], uploaderId := "1",
     pointsValue := 85, isAvailable := true, isApproved := true },
   { id := "10", title := "Blue Hoodie",
     description := "Comfy blue hoodie, perfect for casual wear or workouts.",
     category := "tops", tags := ["hoodie", "blue", "casual", "workout"], uploaderId := "1",
     pointsValue := 40, isAvailable := true, isApproved := true },
   { id := "11", title := "Green Parka",
     description := "Warm green parka with faux fur hood, ideal for cold weather.",
     category := "outerwear", tags := ["parka", "green", "winter", "hood"], uploaderId := "1",
     pointsValue := 110, isAvailable := true, isApproved := true },
   { id := "12", title := "Yellow Raincoat",
     description := "Bright yellow raincoat, waterproof and lightweight.",
     category := "outerwear", tags := ["raincoat", "yellow", "waterproof", "lightweight"], uploaderId := "1",
     pointsValue := 95, isAvailable := true, isApproved := true },
   { id := "13", title := "Beige Chinos",
     description := "Classic beige chinos, slim fit, great for work or casual.",
     category := "bottoms", tags := ["chinos", "beige", "slim-fit", "classic"], uploaderId := "1",
     pointsValue := 55, isAvailable := true, isApproved := true },
   { id := "14", title := "Purple Cardigan",
     description := "Soft purple cardigan, cozy and stylish for chilly days.",
     category := "tops", tags := ["cardigan", "purple", "cozy", "stylish"], uploaderId := "1",
     pointsValue := 70, isAvailable := true, isApproved := true },
   { id := "15", title := "Orange Beanie",
     description := "Bright orange beanie, warm and stretchy, fits all sizes.",
     category := "accessories", tags := ["beanie", "orange", "warm", "stretchy"], uploaderId := "1",
     pointsValue := 25, isAvailable := true, isApproved := true }]

/-- The data the server starts with: the admin user (lines 60-73), the fifteen seed
listings and an empty ledger (line 363). -/
def bootStore : Store :=
  { users := [⟨"1", "Admin User", 1000, 0⟩]
    clothingItems := bootItems
    swapRequests := [] }

/-- JavaScript `s || d` on an optional string. -/
def orString (s : Option String) (d : String) : String :=
  match s with
  | some v => if v = "" then d else v
  | none => d

/-- The store after `POST /api/auth/register` (lines 427-470) has pushed a new user, who
starts with 100 points.  Whether the e-mail is already taken only decides if the push
happens at all. -/
def registerUser (s : Store) (newId name : String) : Store :=
  { s with users := s.users ++ [⟨newId, name, 100, 0⟩] }

/-- The store after `PUT /api/user/profile` (lines 516-537); of the fields it rewrites only
`name` is part of `User`. -/
def updateProfile (s : Store) (userId : String) (name : Option String) : Store :=
  match findIndex (fun u => u.id == userId) s.users with
  | none => s
  | some userIndex =>
    { s with users :=
        (updateAt (fun u => { u with name := orString name u.name }) userIndex s.users) }

/-- The store after `POST /api/items` (lines 571-603); `newId` is `uuidv4()` and
`pointsValue` the result of `parseInt` (`none` for `NaN`).  Without a user record
`user.name` throws and nothing is pushed. -/
def createItem (s : Store) (userId newId title description category : String)
    (tags : List String) (pointsValue : Option Int) : Store :=
  match find (fun u => u.id == userId) s.users with
  | none => s
  | some _ =>
    { s with clothingItems :=
        (s.clothingItems ++
          [{ id := newId, title := title, description := description, category := category,
             tags := tags, uploaderId := userId, pointsValue := orInt pointsValue 50,
             isAvailable := true, isApproved := false }]) }

/-- The store after `PUT /api/items/:id` (lines 605-628). -/
def updateItem (s : Store) (userId : String) (isAdmin : Bool) (itemId : String)
    (isAvailable : Option Bool) : Store :=
  match findIndex (fun i => i.id == itemId) s.clothingItems with
  | none => s
  | some itemIndex =>
    match s.clothingItems[itemIndex]? with
    | none => s
    | some item =>
      if item.uploaderId != userId && !isAdmin then s
      else
        { s with clothingItems :=
            (updateAt (fun i => { i with isAvailable := isAvailable.getD i.isAvailable })
              itemIndex s.clothingItems) }

/-- The store after `PUT /api/admin/items/:id/approve` (lines 771-784). -/
def approveItem (s : Store) (itemId : String) : Store :=
  match findIndex (fun i => i.id == itemId) s.clothingItems with
  | none => s
  | some itemIndex =>
    { s with clothingItems :=
        (updateAt (fun i => { i with isApproved := true }) itemIndex s.clothingItems) }

/-- A request to one of the routes that write to the store.  The admin route
`DELETE /api/admin/items/:id` (lines 786-808) is `deleteItem` with `isAdmin` true. -/
inductive Request where
  | register (newId name : String)
  | updateProfile (userId : String) (name : Option String)
  | createItem (userId newId title description category : String) (tags : List String)
      (pointsValue : Option Int)
  | updateItem (userId : String) (isAdmin : Bool) (itemId : String) (isAvailable : Option Bool)
  | deleteItem (userId : String) (isAdmin : Bool) (itemId : String)
  | approveItem (itemId : String)
  | proposeSwap (userId : String) (b : SwapBody) (newId today : String)
  | decideSwap (userId swapId status : String)

/-- The store after a request has been served. -/
def serve (s : Store) : Request → Store
  | .register newId name => registerUser s newId name
  | .updateProfile userId name => updateProfile s userId name
  | .createItem userId newId title description category tags pointsValue =>
    createItem s userId newId title description category tags pointsValue
  | .updateItem userId isAdmin itemId isAvailable => updateItem s userId isAdmin itemId isAvailable
  | .deleteItem userId isAdmin itemId => (deleteItem s userId isAdmin itemId).1
  | .approveItem itemId => approveItem s itemId
  | .proposeSwap userId b newId today => (proposeSwap s userId b newId today).store
  | .decideSwap userId swapId status => (decideSwap s userId swapId status).store

/-- The identifier `uuidv4()` hands to a new listing is new: no listing carries it and no
swap record refers to it.  The other requests are not constrained. -/
def usesFreshId (s : Store) : Request → Prop
  | .createItem _ newId _ _ _ _ _ =>
    (∀ it ∈ s.clothingItems, it.id ≠ newId) ∧ (∀ sw ∈ s.swapRequests, sw.itemId ≠ newId)
  | _ => True

/-- The stores the server can be in: the boot data, and whatever a request leaves behind. -/
inductive Reachable : Store → Prop where
  | boot : Reachable bootStore
  | step {s : Store} (r : Request) : Reachable s → usesFreshId s r → Reachable (serve s r)

/-- What every reachable store satisfies: the requester of every swap record and the owner
of every listing have a user record, no swap record asks for a listing of its own requester,
and no two listings share an identifier. -/
structure StoreInvariant (s : Store) : Prop where
  requesterKnown : ∀ sw ∈ s.swapRequests, sw.requesterId ∈ s.users.map (·.id)
  ownerKnown : ∀ it ∈ s.clothingItems, it.uploaderId ∈ s.users.map (·.id)
  notOwnItem : ∀ sw ∈ s.swapRequests, ∀ it ∈ s.clothingItems,
    it.id = sw.itemId → it.uploaderId ≠ sw.requesterId
  itemIdsNodup : (s.clothingItems.map (·.id)).Nodup

/-- The store reached from the boot data when a user `u2` has registered and has asked for
listing `1` against 75 points. -/
def bootProposed : Store :=
  serve (serve bootStore (.register "u2" "Bob"))
    (.proposeSwap "u2" ⟨"1", none, true, some 75, none⟩ "s1" "2024-02-01")

/-- The first seed listing (lines 76-94), the head of `bootItems`. -/
def bootJacket : ClothingItem :=
  { id := "1", title := "Vintage Denim Jacket",
    description := "Classic blue denim jacket from the 90s. Perfectly worn-in with beautiful fading. Great for layering!",
    category := "outerwear", tags := ["vintage", "denim", "casual", "90s"], uploaderId := "1",
    pointsValue := 75, isAvailable := true, isApproved := true }

/-- The store `bootProposed` after the admin has deleted listing `1`. -/
def bootDeleted : Store :=
  serve bootProposed (.deleteItem "1" true "1")

/-! ## Lemmas on the array helpers -/

theorem find_eq_none_iff {α : Type} (p : α → Bool) (xs : List α) :
    find p xs = none ↔ findIndex p xs = none := by
  induction xs with
  | nil => simp [find, findIndex]
  | cons x xs ih =>
    by_cases h : p x = true
    · simp [find, findIndex, h]
    · simp [find, findIndex, h, ih]

theorem findIndex_spec {α : Type} (p : α → Bool) :
    ∀ (xs : List α) (i : Nat), findIndex p xs = some i →
      ∃ x, xs[i]? = some x ∧ p x = true ∧ find p xs = some x := by
  intro xs
  induction xs with
  | nil => intro i h; simp [findIndex] at h
  | cons x xs ih =>
    intro i h
    by_cases hp : p x = true
    · simp [findIndex, hp] at h
      subst h
      exact ⟨x, by simp, hp, by simp [find, hp]⟩
    · simp only [findIndex, hp, Bool.false_eq_true, if_false, Option.map_eq_some'] at h
      obtain ⟨j, hj, rfl⟩ := h
      obtain ⟨y, hy, hpy, hf⟩ := ih j hj
      exact ⟨y, by simpa using hy, hpy, by simpa [find, hp] using hf⟩

theorem find_spec {α : Type} (p : α → Bool) (xs : List α) (x : α) (h : find p xs = some x) :
    ∃ i, findIndex p xs = some i ∧ xs[i]? = some x ∧ p x = true := by
  cases hi : findIndex p xs with
  | none => rw [(find_eq_none_iff p xs).mpr hi] at h; cases h
  | some i =>
    obtain ⟨y, hy, hpy, hf⟩ := findIndex_spec p xs i hi
    rw [h] at hf
    cases hf
    exact ⟨i, rfl, hy, hpy⟩

theorem length_updateAt {α : Type} (f : α → α) :
    ∀ (i : Nat) (xs : List α), (updateAt f i xs).length = xs.length := by
  intro i xs
  induction xs generalizing i with
  | nil => simp [updateAt]
  | cons x xs ih => cases i <;> simp [updateAt, ih]

theorem getElem?_updateAt {α : Type} (f : α → α) :
    ∀ (i : Nat) (xs : List α) (k : Nat),
      (updateAt f i xs)[k]? = if k = i then (xs[k]?).map f else xs[k]? := by
  intro i xs
  induction xs generalizing i with
  | nil => intro k; simp [updateAt]
  | cons x xs ih =>
    intro k
    cases i with
    | zero => cases k <;> simp [updateAt]
    | succ i' => cases k <;> simp [updateAt, ih]

theorem findIndex_updateAt {α : Type} (p : α → Bool) (f : α → α) (hf : ∀ x, p (f x) = p x) :
    ∀ (i : Nat) (xs : List α), findIndex p (updateAt f i xs) = findIndex p xs := by
  intro i xs
  induction xs generalizing i with
  | nil => simp [updateAt]
  | cons x xs ih => cases i <;> simp [updateAt, findIndex, hf, ih]

theorem find_updateAt {α : Type} (p : α → Bool) (f : α → α) (hf : ∀ x, p (f x) = p x) :
    ∀ (i : Nat) (xs : List α),
      find p (updateAt f i xs) =
        if findIndex p xs = some i then (find p xs).map f else find p xs := by
  intro i xs
  induction xs generalizing i with
  | nil => simp [updateAt, find]
  | cons x xs ih =>
    cases i with
    | zero =>
      by_cases hp : p x = true
      · simp [updateAt, find, findIndex, hf, hp]
      · simp [updateAt, find, findIndex, hf, hp]
    | succ i' =>
      by_cases hp : p x = true
      · simp [updateAt, find, findIndex, hp]
      · simp [updateAt, find, findIndex, hp, ih]

/-! ## Lemmas on `decideSwap` -/

theorem decideSwap_by_owner (s : Store) (userId swapId status : String) (k : Nat)
    (sw : SwapRequest) (it : ClothingItem)
    (hk : findIndex (fun w => w.id == swapId) s.swapRequests = some k)
    (hsw : s.swapRequests[k]? = some sw)
    (hit : find (fun i => i.id == sw.itemId) s.clothingItems = some it)
    (hown : it.uploaderId = userId) :
    decideSwap s userId swapId status =
      ⟨{ afterAccept s sw it status with
          swapRequests := updateAt (fun w => { w with status := status }) k s.swapRequests },
        .ok { sw with status := status }⟩ := by
  have hs1 : (afterAccept s sw it status).swapRequests = s.swapRequests := by
    unfold afterAccept; split <;> rfl
  unfold decideSwap
  simp only [hk, hsw, hit, hown]
  simp only [bne_self_eq_false, Bool.false_eq_true, if_false]
  show (match (updateAt (fun w => { w with status := status }) k
      (afterAccept s sw it status).swapRequests)[k]? with
    | none => (⟨afterAccept s sw it status, .fail .serverError⟩ : Outcome)
    | some updated => ⟨{ afterAccept s sw it status with
        swapRequests := updateAt (fun w => { w with status := status }) k
          (afterAccept s sw it status).swapRequests }, .ok updated⟩) = _
  rw [hs1, getElem?_updateAt, if_pos rfl, hsw]
  rfl

theorem transferPoints_distinct (users : List User) (sw : SwapRequest) (it : ClothingItem)
    (r o : User)
    (hr : find (fun u => u.id == sw.requesterId) users = some r)
    (ho : find (fun u => u.id == it.uploaderId) users = some o)
    (hne : sw.requesterId ≠ it.uploaderId) :
    find (fun u => u.id == sw.requesterId) (transferPoints users sw it) =
        some { r with points := r.points - sw.pointsOffered, swapCount := r.swapCount + 1 } ∧
    find (fun u => u.id == it.uploaderId) (transferPoints users sw it) =
        some { o with points := o.points + sw.pointsOffered, swapCount := o.swapCount + 1 } := by
  obtain ⟨ri, hri, hrg, hrp⟩ := find_spec _ _ _ hr
  obtain ⟨oi, hoi, hog, hop⟩ := find_spec _ _ _ ho
  have hio : ri ≠ oi := by
    rintro rfl
    rw [hrg] at hog
    cases hog
    simp at hrp hop
    exact hne (hrp.symm.trans hop)
  have hoi' : oi ≠ ri := fun h => hio h.symm
  unfold transferPoints
  simp only [hri, hoi]
  constructor
  · simp [find_updateAt, findIndex_updateAt, hri, hoi, hio, hoi', hr]
  · simp [find_updateAt, findIndex_updateAt, hri, hoi, hio, hoi', ho]

theorem map_updateAt_idem {α : Type} (g : α → α) (hg : ∀ x, g (g x) = g x) :
    ∀ (i : Nat) (xs : List α), (updateAt g i xs).map g = xs.map g := by
  intro i xs
  induction xs generalizing i with
  | nil => simp [updateAt]
  | cons x xs ih => cases i <;> simp [updateAt, hg, ih]

theorem map_updateAtOpt_idem {α : Type} (g : α → α) (hg : ∀ x, g (g x) = g x)
    (i : Option Nat) (xs : List α) : (updateAtOpt g i xs).map g = xs.map g := by
  cases i with
  | none => rfl
  | some k => exact map_updateAt_idem g hg k xs

theorem getElem?_updateAtOpt {α : Type} (f : α → α) (i : Option Nat) (xs : List α) (k : Nat) :
    (updateAtOpt f i xs)[k]? = if i = some k then (xs[k]?).map f else xs[k]? := by
  cases i with
  | none => simp [updateAtOpt]
  | some j =>
    simp only [updateAtOpt, getElem?_updateAt, Option.some.injEq]
    by_cases h : k = j
    · simp [h]
    · have h' : ¬ j = k := fun e => h e.symm
      simp [h, h']

theorem findIndex_updateAtOpt {α : Type} (p : α → Bool) (f : α → α) (hf : ∀ x, p (f x) = p x)
    (i : Option Nat) (xs : List α) : findIndex p (updateAtOpt f i xs) = findIndex p xs := by
  cases i with
  | none => rfl
  | some k => exact findIndex_updateAt p f hf k xs

theorem find_updateAtOpt {α : Type} (p : α → Bool) (f : α → α) (hf : ∀ x, p (f x) = p x)
    (i : Option Nat) (xs : List α) :
    find p (updateAtOpt f i xs) =
      if findIndex p xs = i ∧ i ≠ none then (find p xs).map f else find p xs := by
  cases i with
  | none => simp [updateAtOpt]
  | some k => simp [updateAtOpt, find_updateAt p f hf]

theorem getElem?_markOffered_markItem (items : List ClothingItem) (sw : SwapRequest) (k : Nat) :
    (markOffered (markItem items sw) sw)[k]? =
      if findIndex (fun i => i.id == sw.itemId) items = some k ∨
          (truthy sw.offeredItemId = true ∧
            findIndex (fun i => some i.id == sw.offeredItemId) items = some k)
      then (items[k]?).map markUnavailable else items[k]? := by
  unfold markOffered markItem
  have hf : ∀ x : ClothingItem,
      (some (markUnavailable x).id == sw.offeredItemId) = (some x.id == sw.offeredItemId) :=
    fun _ => rfl
  by_cases ht : truthy sw.offeredItemId = true
  · simp only [ht, if_true, getElem?_updateAtOpt,
      findIndex_updateAtOpt (fun i : ClothingItem => some i.id == sw.offeredItemId)
        markUnavailable hf, true_and]
    by_cases h1 : findIndex (fun i => i.id == sw.itemId) items = some k <;>
    by_cases h2 : findIndex (fun i => some i.id == sw.offeredItemId) items = some k <;>
    simp [h1, h2]
    cases items[k]? <;> simp [markUnavailable]
  · simp [ht, getElem?_updateAtOpt]
theorem find_markOffered_markItem_target (items : List ClothingItem) (sw : SwapRequest)
    (it : ClothingItem) (hit : find (fun i => i.id == sw.itemId) items = some it) :
    find (fun i => i.id == sw.itemId) (markOffered (markItem items sw) sw) =
      some (markUnavailable it) := by
  obtain ⟨k, hk, hg, _⟩ := find_spec _ _ _ hit
  have hf : ∀ x : ClothingItem, ((markUnavailable x).id == sw.itemId) = (x.id == sw.itemId) :=
    fun _ => rfl
  have h1 : find (fun i => i.id == sw.itemId) (markItem items sw) = some (markUnavailable it) := by
    unfold markItem
    rw [find_updateAtOpt _ _ hf, hk, hit]
    simp
  have h1i : findIndex (fun i => i.id == sw.itemId) (markItem items sw) = some k := by
    unfold markItem
    rw [findIndex_updateAtOpt _ _ hf, hk]
  unfold markOffered
  split
  · rw [find_updateAtOpt _ _ hf, h1]
    split <;> simp [markUnavailable]
  · exact h1

theorem find_markOffered_markItem_offered (items : List ClothingItem) (sw : SwapRequest)
    (x : ClothingItem) (ht : truthy sw.offeredItemId = true)
    (hx : find (fun i => some i.id == sw.offeredItemId) items = some x) :
    find (fun i => some i.id == sw.offeredItemId) (markOffered (markItem items sw) sw) =
      some (markUnavailable x) := by
  have hf : ∀ y : ClothingItem,
      (some (markUnavailable y).id == sw.offeredItemId) = (some y.id == sw.offeredItemId) :=
    fun _ => rfl
  obtain ⟨k, hk, _, _⟩ := find_spec _ _ _ hx
  have h1i : findIndex (fun i => some i.id == sw.offeredItemId) (markItem items sw) = some k := by
    unfold markItem
    rw [findIndex_updateAtOpt _ _ hf, hk]
  have h1 : find (fun i => some i.id == sw.offeredItemId) (markItem items sw) = some x ∨
      find (fun i => some i.id == sw.offeredItemId) (markItem items sw) =
        some (markUnavailable x) := by
    unfold markItem
    rw [find_updateAtOpt _ _ hf, hx]
    split <;> simp
  unfold markOffered
  rw [if_pos ht, find_updateAtOpt _ _ hf, h1i]
  rcases h1 with h | h <;> simp [h, markUnavailable]

theorem markUnavailable_idem (x : ClothingItem) :
    markUnavailable (markUnavailable x) = markUnavailable x := rfl

theorem map_markOffered_markItem (items : List ClothingItem) (sw : SwapRequest) :
    (markOffered (markItem items sw) sw).map markUnavailable = items.map markUnavailable := by
  unfold markOffered markItem
  split
  · rw [map_updateAtOpt_idem _ markUnavailable_idem, map_updateAtOpt_idem _ markUnavailable_idem]
  · rw [map_updateAtOpt_idem _ markUnavailable_idem]
theorem decideSwap_accept_store (s : Store) (userId swapId : String) (sw : SwapRequest)
    (it : ClothingItem)
    (hsw : find (fun w => w.id == swapId) s.swapRequests = some sw)
    (hit : find (fun i => i.id == sw.itemId) s.clothingItems = some it)
    (hown : it.uploaderId = userId) :
    (decideSwap s userId swapId "accepted").response = .ok { sw with status := "accepted" } ∧
    (decideSwap s userId swapId "accepted").store.users =
      (if sw.usePoints then transferPoints s.users sw it else s.users) ∧
    (decideSwap s userId swapId "accepted").store.clothingItems =
      markOffered (markItem s.clothingItems sw) sw ∧
    find (fun w => w.id == swapId) (decideSwap s userId swapId "accepted").store.swapRequests =
      some { sw with status := "accepted" } ∧
    find (fun i => i.id == sw.itemId) (decideSwap s userId swapId "accepted").store.clothingItems =
      some (markUnavailable it) := by
  obtain ⟨k, hk, hg, _⟩ := find_spec _ _ _ hsw
  rw [decideSwap_by_owner s userId swapId "accepted" k sw it hk hg hit hown]
  have hi : (afterAccept s sw it "accepted").clothingItems =
      markOffered (markItem s.clothingItems sw) sw := by
    simp [afterAccept, acceptSwap]
  have hu : (afterAccept s sw it "accepted").users =
      if sw.usePoints then transferPoints s.users sw it else s.users := by
    simp [afterAccept, acceptSwap]
  refine ⟨rfl, hu, hi, ?_, ?_⟩
  · show find _ (updateAt _ k s.swapRequests) = _
    rw [find_updateAt (fun w : SwapRequest => w.id == swapId)
      (fun w => { w with status := "accepted" }) (fun _ => rfl), if_pos hk, hsw]
    rfl
  · show find _ (afterAccept s sw it "accepted").clothingItems = _
    rw [hi]
    exact find_markOffered_markItem_target _ _ _ hit

/-! ## The store invariant -/

theorem map_updateAt_of_eq {α β : Type} (g : α → β) (f : α → α) (hf : ∀ x, g (f x) = g x) :
    ∀ (i : Nat) (xs : List α), (updateAt f i xs).map g = xs.map g := by
  intro i xs
  induction xs generalizing i with
  | nil => simp [updateAt]
  | cons x xs ih => cases i <;> simp [updateAt, hf, ih]

theorem map_updateAtOpt_of_eq {α β : Type} (g : α → β) (f : α → α) (hf : ∀ x, g (f x) = g x)
    (i : Option Nat) (xs : List α) : (updateAtOpt f i xs).map g = xs.map g := by
  cases i with
  | none => rfl
  | some k => exact map_updateAt_of_eq g f hf k xs

theorem find_mem {α : Type} (p : α → Bool) (xs : List α) (x : α) (h : find p xs = some x) :
    x ∈ xs ∧ p x = true := by
  obtain ⟨i, _, hg, hp⟩ := find_spec p xs x h
  exact ⟨List.getElem?_mem hg, hp⟩

theorem find_isSome_of_mem {α : Type} (p : α → Bool) :
    ∀ (xs : List α) (x : α), x ∈ xs → p x = true → ∃ y, find p xs = some y := by
  intro xs
  induction xs with
  | nil => intro x h; cases h
  | cons a xs ih =>
    intro x hx hp
    by_cases ha : p a = true
    · exact ⟨a, by simp [find, ha]⟩
    · rcases List.mem_cons.mp hx with rfl | hx
      · exact absurd hp ha
      · obtain ⟨y, hy⟩ := ih x hx hp
        exact ⟨y, by simpa [find, ha] using hy⟩

theorem find_user_of_mem_ids (users : List User) (a : String)
    (h : a ∈ users.map (·.id)) : ∃ u, find (fun u => u.id == a) users = some u := by
  obtain ⟨u, hu, rfl⟩ := List.mem_map.mp h
  exact find_isSome_of_mem _ users u hu (by simp)

theorem mem_ids_of_find_user (users : List User) (a : String) (u : User)
    (h : find (fun u => u.id == a) users = some u) : a ∈ users.map (·.id) := by
  obtain ⟨hm, hp⟩ := find_mem _ _ _ h
  exact List.mem_map.mpr ⟨u, hm, by simpa using hp⟩

theorem find_item_unique (items : List ClothingItem) (hnd : (items.map (·.id)).Nodup) :
    ∀ (it it0 : ClothingItem), it ∈ items →
      find (fun i => i.id == it.id) items = some it0 → it = it0 := by
  induction items with
  | nil => intro it it0 h; cases h
  | cons a xs ih =>
    intro it it0 hit hfind
    simp only [List.map_cons, List.nodup_cons] at hnd
    by_cases ha : a.id = it.id
    · simp [find, ha] at hfind
      subst hfind
      rcases List.mem_cons.mp hit with rfl | h
      · rfl
      · exact absurd (List.mem_map.mpr ⟨it, h, ha.symm⟩) hnd.1
    · have hne : (a.id == it.id) = false := by simpa using ha
      simp only [find, hne, Bool.false_eq_true, if_false] at hfind
      rcases List.mem_cons.mp hit with rfl | h
      · exact absurd rfl ha
      · exact ih hnd.2 it it0 h hfind

/-- A store whose users carry the same ids, whose listings carry the same ids and owners and
whose swap records carry the same requesters and targets satisfies the invariant as well. -/
theorem StoreInvariant.of_same_keys {s t : Store} (h : StoreInvariant s)
    (hu : t.users.map (·.id) = s.users.map (·.id))
    (hi : t.clothingItems.map (fun i => (i.id, i.uploaderId)) =
      s.clothingItems.map (fun i => (i.id, i.uploaderId)))
    (hw : t.swapRequests.map (fun w => (w.requesterId, w.itemId)) =
      s.swapRequests.map (fun w => (w.requesterId, w.itemId))) :
    StoreInvariant t := by
  have hitem : ∀ it ∈ t.clothingItems, ∃ it0 ∈ s.clothingItems,
      it0.id = it.id ∧ it0.uploaderId = it.uploaderId := by
    intro it hit
    have : (it.id, it.uploaderId) ∈ s.clothingItems.map (fun i => (i.id, i.uploaderId)) := by
      rw [← hi]
      exact List.mem_map.mpr ⟨it, hit, rfl⟩
    obtain ⟨it0, h0, he⟩ := List.mem_map.mp this
    simp only [Prod.mk.injEq] at he
    exact ⟨it0, h0, he.1, he.2⟩
  have hswap : ∀ sw ∈ t.swapRequests, ∃ sw0 ∈ s.swapRequests,
      sw0.requesterId = sw.requesterId ∧ sw0.itemId = sw.itemId := by
    intro sw hsw
    have : (sw.requesterId, sw.itemId) ∈
        s.swapRequests.map (fun w => (w.requesterId, w.itemId)) := by
      rw [← hw]
      exact List.mem_map.mpr ⟨sw, hsw, rfl⟩
    obtain ⟨sw0, h0, he⟩ := List.mem_map.mp this
    simp only [Prod.mk.injEq] at he
    exact ⟨sw0, h0, he.1, he.2⟩
  refine ⟨?_, ?_, ?_, ?_⟩
  · intro sw hsw
    obtain ⟨sw0, h0, hr, _⟩ := hswap sw hsw
    rw [hu, ← hr]
    exact h.requesterKnown sw0 h0
  · intro it hit
    obtain ⟨it0, h0, _, ho⟩ := hitem it hit
    rw [hu, ← ho]
    exact h.ownerKnown it0 h0
  · intro sw hsw it hit hid
    obtain ⟨sw0, hs0, hr, hti⟩ := hswap sw hsw
    obtain ⟨it0, h0, hi0, ho⟩ := hitem it hit
    rw [← ho, ← hr]
    exact h.notOwnItem sw0 hs0 it0 h0 (by rw [hi0, hid, hti])
  · have : t.clothingItems.map (·.id) = s.clothingItems.map (·.id) := by
      have := congrArg (List.map Prod.fst) hi
      simpa [List.map_map, Function.comp_def] using this
    rw [this]
    exact h.itemIdsNodup

theorem bootStore_invariant : StoreInvariant bootStore := by
  refine ⟨?_, ?_, ?_, ?_⟩
  · intro sw hsw
    cases hsw
  · show ∀ it ∈ bootItems, it.uploaderId ∈ ["1"]
    decide
  · intro sw hsw
    cases hsw
  · show (bootItems.map (·.id)).Nodup
    decide

theorem registerUser_invariant (s : Store) (newId name : String) (h : StoreInvariant s) :
    StoreInvariant (registerUser s newId name) := by
  refine ⟨?_, ?_, h.notOwnItem, h.itemIdsNodup⟩
  · intro sw hsw
    simp only [registerUser, List.map_append, List.mem_append]
    exact Or.inl (h.requesterKnown sw hsw)
  · intro it hit
    simp only [registerUser, List.map_append, List.mem_append]
    exact Or.inl (h.ownerKnown it hit)

theorem updateProfile_invariant (s : Store) (userId : String) (name : Option String)
    (h : StoreInvariant s) : StoreInvariant (updateProfile s userId name) := by
  unfold updateProfile
  split
  · exact h
  · refine h.of_same_keys ?_ rfl rfl
    apply map_updateAt_of_eq
    intro _
    rfl

theorem createItem_invariant (s : Store) (userId newId title description category : String)
    (tags : List String) (pointsValue : Option Int) (h : StoreInvariant s)
    (hfresh : (∀ it ∈ s.clothingItems, it.id ≠ newId) ∧
      (∀ sw ∈ s.swapRequests, sw.itemId ≠ newId)) :
    StoreInvariant (createItem s userId newId title description category tags pointsValue) := by
  unfold createItem
  cases hu : find (fun u => u.id == userId) s.users with
  | none => exact h
  | some u =>
    refine ⟨h.requesterKnown, ?_, ?_, ?_⟩
    · intro it hit
      rcases List.mem_append.mp hit with hold | hnew
      · exact h.ownerKnown it hold
      · simp only [List.mem_singleton] at hnew
        subst hnew
        exact mem_ids_of_find_user s.users userId u hu
    · intro sw hsw it hit hid
      rcases List.mem_append.mp hit with hold | hnew
      · exact h.notOwnItem sw hsw it hold hid
      · simp only [List.mem_singleton] at hnew
        subst hnew
        exact absurd hid.symm (hfresh.2 sw hsw)
    · show ((s.clothingItems ++ _).map (·.id)).Nodup
      rw [List.map_append, List.nodup_append]
      refine ⟨h.itemIdsNodup, by simp, ?_⟩
      intro a ha hb
      simp only [List.map_cons, List.map_nil, List.mem_singleton] at hb
      obtain ⟨it, hit, rfl⟩ := List.mem_map.mp ha
      exact hfresh.1 it hit hb

theorem updateItem_invariant (s : Store) (userId : String) (isAdmin : Bool) (itemId : String)
    (isAvailable : Option Bool) (h : StoreInvariant s) :
    StoreInvariant (updateItem s userId isAdmin itemId isAvailable) := by
  unfold updateItem
  split
  · exact h
  · split
    · exact h
    · split
      · exact h
      · refine h.of_same_keys rfl ?_ rfl
        apply map_updateAt_of_eq
        intro _
        rfl

theorem approveItem_invariant (s : Store) (itemId : String) (h : StoreInvariant s) :
    StoreInvariant (approveItem s itemId) := by
  unfold approveItem
  split
  · exact h
  · refine h.of_same_keys rfl ?_ rfl
    apply map_updateAt_of_eq
    intro _
    rfl

theorem deleteItem_invariant (s : Store) (userId : String) (isAdmin : Bool) (itemId : String)
    (h : StoreInvariant s) : StoreInvariant (deleteItem s userId isAdmin itemId).1 := by
  unfold deleteItem
  split
  · exact h
  · split
    · exact h
    · split
      · exact h
      · refine ⟨h.requesterKnown, ?_, ?_, ?_⟩
        · intro it hit
          exact h.ownerKnown it (List.mem_of_mem_eraseIdx hit)
        · intro sw hsw it hit hid
          exact h.notOwnItem sw hsw it (List.mem_of_mem_eraseIdx hit) hid
        · exact h.itemIdsNodup.sublist ((List.eraseIdx_sublist _ _).map _)

theorem proposeSwap_invariant (s : Store) (userId : String) (b : SwapBody)
    (newId today : String) (h : StoreInvariant s) :
    StoreInvariant (proposeSwap s userId b newId today).store := by
  unfold proposeSwap
  cases hit : find (fun i => i.id == b.itemId) s.clothingItems with
  | none => exact h
  | some item =>
    simp only
    split
    · exact h
    · split
      · exact h
      · rename_i hav hown
        cases hu : find (fun u => u.id == userId) s.users with
        | none => exact h
        | some u =>
          simp only
          split
          · exact h
          · refine ⟨?_, h.ownerKnown, ?_, h.itemIdsNodup⟩
            · intro sw hsw
              rcases List.mem_append.mp hsw with hold | hnew
              · exact h.requesterKnown sw hold
              · simp only [List.mem_singleton] at hnew
                subst hnew
                exact mem_ids_of_find_user s.users userId u hu
            · intro sw hsw it hmem hid
              rcases List.mem_append.mp hsw with hold | hnew
              · exact h.notOwnItem sw hold it hmem hid
              · simp only [List.mem_singleton] at hnew
                subst hnew
                have hid' : it.id = b.itemId := hid
                have hfind : find (fun i => i.id == it.id) s.clothingItems = some item := by
                  rw [hid']
                  exact hit
                have := find_item_unique s.clothingItems h.itemIdsNodup it item hmem hfind
                subst this
                simpa using hown

theorem transferPoints_ids (users : List User) (sw : SwapRequest) (it : ClothingItem) :
    (transferPoints users sw it).map (·.id) = users.map (·.id) := by
  have hstep : ∀ (f : User → User), (∀ u, (f u).id = u.id) → ∀ (i : Nat) (xs : List User),
      (updateAt f i xs).map (·.id) = xs.map (·.id) :=
    fun f hf i xs => map_updateAt_of_eq (fun u : User => u.id) f hf i xs
  unfold transferPoints
  cases findIndex (fun u => u.id == sw.requesterId) users with
  | none => rfl
  | some r =>
    cases findIndex (fun u => u.id == it.uploaderId) users with
    | none => rfl
    | some o =>
      simp only
      have h4 := hstep (fun u => { u with swapCount := u.swapCount + 1 }) (fun _ => rfl)
      have h2 := hstep (fun u => { u with points := u.points + sw.pointsOffered })
        (fun _ => rfl)
      have h1 := hstep (fun u => { u with points := u.points - sw.pointsOffered })
        (fun _ => rfl)
      rw [h4, h4, h2, h1]

theorem markOffered_markItem_keys (items : List ClothingItem) (sw : SwapRequest) :
    (markOffered (markItem items sw) sw).map (fun i => (i.id, i.uploaderId)) =
      items.map (fun i => (i.id, i.uploaderId)) := by
  have hstep : ∀ (i : Option Nat) (xs : List ClothingItem),
      (updateAtOpt markUnavailable i xs).map (fun i => (i.id, i.uploaderId)) =
        xs.map (fun i => (i.id, i.uploaderId)) :=
    fun i xs => map_updateAtOpt_of_eq (fun i : ClothingItem => (i.id, i.uploaderId))
      markUnavailable (fun _ => rfl) i xs
  unfold markOffered markItem
  split
  · rw [hstep, hstep]
  · rw [hstep]

theorem afterAccept_invariant (s : Store) (sw : SwapRequest) (it : ClothingItem)
    (status : String) (h : StoreInvariant s) : StoreInvariant (afterAccept s sw it status) := by
  unfold afterAccept
  split
  · refine h.of_same_keys ?_ (markOffered_markItem_keys _ _) rfl
    show (if sw.usePoints then transferPoints s.users sw it else s.users).map (·.id) = _
    split
    · exact transferPoints_ids _ _ _
    · rfl
  · exact h

theorem decideSwap_invariant (s : Store) (userId swapId status : String)
    (h : StoreInvariant s) : StoreInvariant (decideSwap s userId swapId status).store := by
  cases hk : findIndex (fun w => w.id == swapId) s.swapRequests with
  | none => simpa [decideSwap, hk] using h
  | some k =>
    obtain ⟨sw, hg, _, _⟩ := findIndex_spec _ _ _ hk
    cases hit : find (fun i => i.id == sw.itemId) s.clothingItems with
    | none => simpa [decideSwap, hk, hg, hit] using h
    | some it =>
      by_cases hown : it.uploaderId = userId
      · rw [decideSwap_by_owner s userId swapId status k sw it hk hg hit hown]
        have h1 := afterAccept_invariant s sw it status h
        have hs1 : (afterAccept s sw it status).swapRequests = s.swapRequests := by
          unfold afterAccept; split <;> rfl
        refine h1.of_same_keys rfl rfl ?_
        show (updateAt _ k s.swapRequests).map _ = (afterAccept s sw it status).swapRequests.map _
        rw [hs1]
        apply map_updateAt_of_eq
        intro _
        rfl
      · simpa [decideSwap, hk, hg, hit, hown] using h

/-- Every store the server can reach satisfies the store invariant. -/
theorem reachable_invariant {s : Store} (h : Reachable s) : StoreInvariant s := by
  induction h with
  | boot => exact bootStore_invariant
  | step r _ hfresh ih =>
    cases r with
    | register newId name => exact registerUser_invariant _ _ _ ih
    | updateProfile userId name => exact updateProfile_invariant _ _ _ ih
    | createItem userId newId title description category tags pointsValue =>
      exact createItem_invariant _ _ _ _ _ _ _ _ ih hfresh
    | updateItem userId isAdmin itemId isAvailable => exact updateItem_invariant _ _ _ _ _ ih
    | deleteItem userId isAdmin itemId => exact deleteItem_invariant _ _ _ _ ih
    | approveItem itemId => exact approveItem_invariant _ _ ih
    | proposeSwap userId b newId today => exact proposeSwap_invariant _ _ _ _ _ ih
    | decideSwap userId swapId status => exact decideSwap_invariant _ _ _ _ ih

theorem bootProposed_reachable : Reachable bootProposed :=
  Reachable.step _ (Reachable.step _ Reachable.boot trivial) trivial

/-! ## C1: points transfer on acceptance -/

theorem swap_parties (s : Store) (h : StoreInvariant s) (swapId : String) (sw : SwapRequest)
    (it : ClothingItem)
    (hsw : find (fun w => w.id == swapId) s.swapRequests = some sw)
    (hit : find (fun i => i.id == sw.itemId) s.clothingItems = some it) :
    (∃ r, find (fun u => u.id == sw.requesterId) s.users = some r) ∧
    (∃ o, find (fun u => u.id == it.uploaderId) s.users = some o) ∧
    sw.requesterId ≠ it.uploaderId := by
  obtain ⟨hswm, _⟩ := find_mem _ _ _ hsw
  obtain ⟨hitm, hid⟩ := find_mem _ _ _ hit
  have hid' : it.id = sw.itemId := by simpa using hid
  exact ⟨find_user_of_mem_ids _ _ (h.requesterKnown sw hswm),
    find_user_of_mem_ids _ _ (h.ownerKnown it hitm),
    fun e => h.notOwnItem sw hswm it hitm hid' e.symm⟩

/-- C1: in every store the server can reach, for every points swap in the ledger whose
target item is listed, `decideSwap(id, ownerId, 'accepted')` by the item's owner succeeds;
requester and owner both have a user record; afterwards the requester's balance is the old
one minus exactly `pointsOffered`, the owner's is the old one plus exactly `pointsOffered`
(the sum of the two is unchanged) and each of the two swap counters is the old one plus 1. -/
theorem decideSwap_accept_points (s : Store) (hreach : Reachable s) (swapId : String)
    (sw : SwapRequest) (it : ClothingItem)
    (hsw : find (fun w => w.id == swapId) s.swapRequests = some sw)
    (hpts : sw.usePoints = true)
    (hit : find (fun i => i.id == sw.itemId) s.clothingItems = some it) :
    (decideSwap s it.uploaderId swapId "accepted").response =
        .ok { sw with status := "accepted" } ∧
    (∃ r o, find (fun u => u.id == sw.requesterId) s.users = some r ∧
      find (fun u => u.id == it.uploaderId) s.users = some o ∧
      find (fun u => u.id == sw.requesterId)
          (decideSwap s it.uploaderId swapId "accepted").store.users =
        some { r with points := r.points - sw.pointsOffered, swapCount := r.swapCount + 1 } ∧
      find (fun u => u.id == it.uploaderId)
          (decideSwap s it.uploaderId swapId "accepted").store.users =
        some { o with points := o.points + sw.pointsOffered, swapCount := o.swapCount + 1 }) ∧
    balance (decideSwap s it.uploaderId swapId "accepted").store.users sw.requesterId =
      balance s.users sw.requesterId - sw.pointsOffered ∧
    balance (decideSwap s it.uploaderId swapId "accepted").store.users it.uploaderId =
      balance s.users it.uploaderId + sw.pointsOffered ∧
    balance (decideSwap s it.uploaderId swapId "accepted").store.users sw.requesterId +
        balance (decideSwap s it.uploaderId swapId "accepted").store.users it.uploaderId =
      balance s.users sw.requesterId + balance s.users it.uploaderId ∧
    swapCountOf (decideSwap s it.uploaderId swapId "accepted").store.users sw.requesterId =
      swapCountOf s.users sw.requesterId + 1 ∧
    swapCountOf (decideSwap s it.uploaderId swapId "accepted").store.users it.uploaderId =
      swapCountOf s.users it.uploaderId + 1 := by
  obtain ⟨⟨r, hr⟩, ⟨o, ho⟩, hne⟩ :=
    swap_parties s (reachable_invariant hreach) swapId sw it hsw hit
  obtain ⟨hresp, hu, _, _, _⟩ := decideSwap_accept_store s it.uploaderId swapId sw it hsw hit rfl
  rw [if_pos hpts] at hu
  obtain ⟨h1, h2⟩ := transferPoints_distinct s.users sw it r o hr ho hne
  rw [← hu] at h1 h2
  refine ⟨hresp, ⟨r, o, hr, ho, h1, h2⟩, ?_, ?_, ?_, ?_, ?_⟩
  · simp only [balance, h1, hr]
  · simp only [balance, h2, ho]
  · simp only [balance, h1, h2, hr, ho]
    ring
  · simp only [swapCountOf, h1, hr]
  · simp only [swapCountOf, h2, ho]

/-- C1 (witness): first the example of the specification, evaluated: A (balance 100) owns X
(valuation 75), B (balance 200) has proposed a points swap offering 75, A accepts, and then A
has balance 175 and counter 1, B has balance 125 and counter 1, X is unavailable.  Then the
theorem at the reachable store `bootProposed`: the admin accepts the 75 points that the
registered user `u2` offers for listing `1`. -/
theorem decideSwap_accept_points_witness :
    (balance exampleProposed.users "A" = 100 ∧ balance exampleProposed.users "B" = 200 ∧
      balance (decideSwap exampleProposed "A" "s1" "accepted").store.users "A" = 175 ∧
      swapCountOf (decideSwap exampleProposed "A" "s1" "accepted").store.users "A" = 1 ∧
      balance (decideSwap exampleProposed "A" "s1" "accepted").store.users "B" = 125 ∧
      swapCountOf (decideSwap exampleProposed "A" "s1" "accepted").store.users "B" = 1 ∧
      (find (fun i => i.id == "X")
        (decideSwap exampleProposed "A" "s1" "accepted").store.clothingItems).map
          (·.isAvailable) = some false) ∧
    (balance (decideSwap bootProposed "1" "s1" "accepted").store.users "u2" =
        balance bootProposed.users "u2" - 75 ∧
      balance (decideSwap bootProposed "1" "s1" "accepted").store.users "1" =
        balance bootProposed.users "1" + 75 ∧
      swapCountOf (decideSwap bootProposed "1" "s1" "accepted").store.users "u2" =
        swapCountOf bootProposed.users "u2" + 1 ∧
      swapCountOf (decideSwap bootProposed "1" "s1" "accepted").store.users "1" =
        swapCountOf bootProposed.users "1" + 1) :=
  have h := decideSwap_accept_points bootProposed bootProposed_reachable "s1"
    (mkPointsSwap "s1" "u2" "1" 75) bootJacket (by decide) (by decide) (by decide)
  ⟨by decide, h.2.2.1, h.2.2.2.1, h.2.2.2.2.2.1, h.2.2.2.2.2.2⟩

/-! ## C2: availability flags on acceptance -/

/-- C2: after a successful `decideSwap` with status `accepted` the target item is
unavailable; if the swap has an offered item id, the catalogue item with that id is unavailable
too; every catalogue position other than those two holds the item it held before; and the
catalogue has the same items in the same order, differing at most in `isAvailable`. -/
theorem decideSwap_accept_availability (s : Store) (userId swapId : String) (sw : SwapRequest)
    (it : ClothingItem)
    (hsw : find (fun w => w.id == swapId) s.swapRequests = some sw)
    (hit : find (fun i => i.id == sw.itemId) s.clothingItems = some it)
    (hown : it.uploaderId = userId) :
    (decideSwap s userId swapId "accepted").response = .ok { sw with status := "accepted" } ∧
    find (fun i => i.id == sw.itemId) (decideSwap s userId swapId "accepted").store.clothingItems =
      some { it with isAvailable := false } ∧
    (truthy sw.offeredItemId = true →
      ∀ x, find (fun i => some i.id == sw.offeredItemId) s.clothingItems = some x →
        find (fun i => some i.id == sw.offeredItemId)
            (decideSwap s userId swapId "accepted").store.clothingItems =
          some { x with isAvailable := false }) ∧
    (∀ k, findIndex (fun i => i.id == sw.itemId) s.clothingItems ≠ some k →
      ¬ (truthy sw.offeredItemId = true ∧
          findIndex (fun i => some i.id == sw.offeredItemId) s.clothingItems = some k) →
      (decideSwap s userId swapId "accepted").store.clothingItems[k]? = s.clothingItems[k]?) ∧
    (decideSwap s userId swapId "accepted").store.clothingItems.map
        (fun i => { i with isAvailable := false }) =
      s.clothingItems.map (fun i => { i with isAvailable := false }) := by
  obtain ⟨k, hk, hg, _⟩ := find_spec _ _ _ hsw
  rw [decideSwap_by_owner s userId swapId "accepted" k sw it hk hg hit hown]
  have hi : (afterAccept s sw it "accepted").clothingItems =
      markOffered (markItem s.clothingItems sw) sw := by
    simp [afterAccept, acceptSwap]
  refine ⟨rfl, ?_, ?_, ?_, ?_⟩
  · show find _ (afterAccept s sw it "accepted").clothingItems = _
    rw [hi]
    exact find_markOffered_markItem_target _ _ _ hit
  · intro ht x hx
    show find _ (afterAccept s sw it "accepted").clothingItems = _
    rw [hi]
    exact find_markOffered_markItem_offered _ _ _ ht hx
  · intro j h1 h2
    show (afterAccept s sw it "accepted").clothingItems[j]? = _
    rw [hi, getElem?_markOffered_markItem, if_neg]
    rintro (h | h)
    · exact h1 h
    · exact h2 h
  · show (afterAccept s sw it "accepted").clothingItems.map _ = _
    rw [hi]
    exact map_markOffered_markItem _ _

/-- C2 (witness): in `itemSwapStore` the owner A accepts the swap of X against Y: X and Y
become unavailable and the third item Z, at position 2, is untouched. -/
theorem decideSwap_accept_availability_witness :
    find (fun i => i.id == "X")
        (decideSwap itemSwapStore "A" "s2" "accepted").store.clothingItems =
      some (markUnavailable (mkItem "X" "A" 75)) ∧
    find (fun i => some i.id == some "Y")
        (decideSwap itemSwapStore "A" "s2" "accepted").store.clothingItems =
      some (markUnavailable (mkItem "Y" "B" 60)) ∧
    (decideSwap itemSwapStore "A" "s2" "accepted").store.clothingItems[2]? =
      some (mkItem "Z" "A" 40) :=
  have h := decideSwap_accept_availability itemSwapStore "A" "s2"
    { mkPointsSwap "s2" "B" "X" 75 with
        offeredItemId := some "Y", offeredItemTitle := some "Vintage Denim Jacket",
        usePoints := false }
    (mkItem "X" "A" 75) (by decide) (by decide) (by decide)
  ⟨h.2.1, h.2.2.1 (by decide) (mkItem "Y" "B" 60) (by decide),
    h.2.2.2.1 2 (by decide) (by decide)⟩

/-! ## C3: only the owner of the target item may decide -/

/-- While the swap's target item is listed, an acting user other than its owner
(`uploaderId`) gets `403 Not authorized` from `decideSwap`, whatever status is requested, and
the store is left as it was. -/
theorem decideSwap_not_owner (s : Store) (userId swapId status : String) (sw : SwapRequest)
    (it : ClothingItem)
    (hsw : find (fun w => w.id == swapId) s.swapRequests = some sw)
    (hit : find (fun i => i.id == sw.itemId) s.clothingItems = some it)
    (hne : it.uploaderId ≠ userId) :
    decideSwap s userId swapId status = ⟨s, .fail .notAuthorized⟩ := by
  obtain ⟨k, hk, hg, _⟩ := find_spec _ _ _ hsw
  unfold decideSwap
  simp [hk, hg, hit, hne]

/-- C3 (the code at the failing input): `bootProposed` and `bootDeleted` are reachable.  In
`bootProposed` listing `1` belongs to the admin `1`, and the requester `u2`, who does not own
it, is refused with `Not authorized` for the statuses `accepted` and `declined`.  After the
admin has deleted the listing, the swap `s1` is still in the ledger, `u2` still is not the
owner of its target item, and the same two calls answer `500 Server error` instead. -/
theorem non_owner_server_error :
    Reachable bootProposed ∧ Reachable bootDeleted ∧
    (find (fun i => i.id == "1") bootProposed.clothingItems).map (·.uploaderId) = some "1" ∧
    decideSwap bootProposed "u2" "s1" "accepted" = ⟨bootProposed, .fail .notAuthorized⟩ ∧
    decideSwap bootProposed "u2" "s1" "declined" = ⟨bootProposed, .fail .notAuthorized⟩ ∧
    (find (fun w => w.id == "s1") bootDeleted.swapRequests).map (·.itemId) = some "1" ∧
    find (fun i => i.id == "1") bootDeleted.clothingItems = none ∧
    decideSwap bootDeleted "u2" "s1" "accepted" = ⟨bootDeleted, .fail .serverError⟩ ∧
    decideSwap bootDeleted "u2" "s1" "declined" = ⟨bootDeleted, .fail .serverError⟩ :=
  ⟨bootProposed_reachable, Reachable.step _ bootProposed_reachable trivial,
    by decide, by decide, by decide, by decide, by decide, by decide, by decide⟩

/-! ## C4: proposing a swap for an item of one's own -/

/-- C4 (as stated, refuted): A owns X, but X is no longer available; A's proposal for X is
refused with `Item is not available`, not with `Cannot request your own item`. -/
theorem c4_counterexample :
    find (fun i => i.id == "X") takenStore.clothingItems =
        some (markUnavailable (mkItem "X" "A" 75)) ∧
    (markUnavailable (mkItem "X" "A" 75)).uploaderId = "A" ∧
    (proposeSwap takenStore "A" ⟨"X", none, false, none, none⟩ "s1" "2024-02-01").response =
        .fail .itemNotAvailable := by
  decide

/-- C4 (amended): when the requester owns the target item, `proposeSwap` always fails and
records nothing, whatever the other arguments: with `Cannot request your own item` when the
item is available, with `Item is not available` when it is not. -/
theorem proposeSwap_own_item (s : Store) (userId : String) (b : SwapBody)
    (newId today : String) (it : ClothingItem)
    (hit : find (fun i => i.id == b.itemId) s.clothingItems = some it)
    (hown : it.uploaderId = userId) :
    proposeSwap s userId b newId today =
      ⟨s, .fail (if it.isAvailable then .ownItem else .itemNotAvailable)⟩ := by
  unfold proposeSwap
  cases hav : it.isAvailable <;> simp [hit, hown, hav]

/-- C4 (witness): in `exampleStore` A proposes a swap for the own, available item X. -/
theorem proposeSwap_own_item_witness :
    proposeSwap exampleStore "A" ⟨"X", none, true, some 10, none⟩ "s1" "2024-02-01" =
      ⟨exampleStore, .fail .ownItem⟩ :=
  proposeSwap_own_item exampleStore "A" ⟨"X", none, true, some 10, none⟩ "s1" "2024-02-01"
    (mkItem "X" "A" 75) (by decide) (by decide)

/-! ## C5: offering more points than one has -/

/-- C5 (as stated, refuted): B (balance 200) offers 500 points for an item that does not
exist and gets `Item not found`; B with balance -5 offers 0 points for an item valued -10,
the offer falls back to the valuation, -5 is not below -10, and the swap is recorded. -/
theorem c5_counterexample :
    balance exampleStore.users "B" = 200 ∧
    (proposeSwap exampleStore "B" ⟨"W", none, true, some 500, none⟩ "s1" "2024-02-01").response =
        .fail .itemNotFound ∧
    balance debtStore.users "B" = -5 ∧
    (proposeSwap debtStore "B" ⟨"X", none, true, some 0, none⟩ "s1" "2024-02-01").response =
        .ok (mkPointsSwap "s1" "B" "X" (-10)) ∧
    (proposeSwap debtStore "B" ⟨"X", none, true, some 0, none⟩ "s1"
        "2024-02-01").store.swapRequests = [mkPointsSwap "s1" "B" "X" (-10)] := by
  decide

/-- C5 (amended): when the target item exists, is available and is not the requester's own,
and the requester has a user record, a proposal with `usePoints` true whose `pointsOffered`
is non-zero and strictly greater than the requester's balance fails with
`Insufficient points` and leaves the store, hence the ledger, as it was. -/
theorem proposeSwap_insufficient (s : Store) (userId : String) (b : SwapBody)
    (newId today : String) (it : ClothingItem) (u : User) (p : Int)
    (hit : find (fun i => i.id == b.itemId) s.clothingItems = some it)
    (hav : it.isAvailable = true)
    (hown : it.uploaderId ≠ userId)
    (hu : find (fun u => u.id == userId) s.users = some u)
    (hpts : b.usePoints = true)
    (hp : b.pointsOffered = some p)
    (hp0 : p ≠ 0)
    (hlt : u.points < p) :
    proposeSwap s userId b newId today = ⟨s, .fail .insufficientPoints⟩ := by
  unfold proposeSwap
  simp [hit, hav, hown, hu, hpts, hp, orInt, hp0, hlt]

/-- C5 (witness): in `exampleStore` B (balance 200) offers 201 points for X. -/
theorem proposeSwap_insufficient_witness :
    proposeSwap exampleStore "B" ⟨"X", none, true, some 201, none⟩ "s1" "2024-02-01" =
      ⟨exampleStore, .fail .insufficientPoints⟩ :=
  proposeSwap_insufficient exampleStore "B" ⟨"X", none, true, some 201, none⟩ "s1" "2024-02-01"
    (mkItem "X" "A" 75) ⟨"B", "Bob", 200, 0⟩ 201
    (by decide) (by decide) (by decide) (by decide) (by decide) (by decide) (by decide)
    (by decide)

/-! ## C6: validation order of `proposeSwap` -/

/-- C6 (as stated, refuted): the requester `Z` has no user record.  Item X exists, is
available and belongs to A, and no points are used, so all four checks pass; the proposal
nevertheless fails, with `500 Server error`, and nothing is recorded. -/
theorem c6_counterexample :
    find (fun u => u.id == "Z") exampleStore.users = none ∧
    firstFailedCheck (find (fun i => i.id == "X") exampleStore.clothingItems) "Z" 0 false none =
        none ∧
    proposeSwap exampleStore "Z" ⟨"X", none, false, none, none⟩ "s1" "2024-02-01" =
        ⟨exampleStore, .fail .serverError⟩ := by
  decide

/-- C6 (amended): for a requester who has a user record, `proposeSwap` fails with the error
of the first check that fails in the order (a) item exists, (b) item available, (c) owner
differs from requester, (d) balance covers the points offered (or the valuation by default),
leaving the store as it was; and it succeeds, appending the new record, exactly when all four
checks pass. -/
theorem proposeSwap_validation_order (s : Store) (userId : String) (b : SwapBody)
    (newId today : String) (u : User)
    (hu : find (fun u => u.id == userId) s.users = some u) :
    (∀ e, firstFailedCheck (find (fun i => i.id == b.itemId) s.clothingItems) userId u.points
          b.usePoints b.pointsOffered = some e →
        proposeSwap s userId b newId today = ⟨s, .fail e⟩) ∧
    (firstFailedCheck (find (fun i => i.id == b.itemId) s.clothingItems) userId u.points
          b.usePoints b.pointsOffered = none ↔
        ∃ r, (proposeSwap s userId b newId today).response = .ok r) := by
  unfold proposeSwap firstFailedCheck
  cases hit : find (fun i => i.id == b.itemId) s.clothingItems with
  | none => simp
  | some it =>
    cases hav : it.isAvailable with
    | false => simp [hav]
    | true =>
      by_cases hown : it.uploaderId = userId
      · simp [hav, hown]
      · by_cases hd : b.usePoints = true ∧ u.points < orInt b.pointsOffered it.pointsValue
        · simp [hav, hown, hu, hd]
        · simp [hav, hown, hu, hd]

/-- C6 (witness): B (balance 200) proposes in `exampleStore`: a points swap for the missing
item W fails with `Item not found`; an offer of 75 points for X passes all four checks. -/
theorem proposeSwap_validation_order_witness :
    proposeSwap exampleStore "B" ⟨"W", none, true, some 500, none⟩ "s1" "2024-02-01" =
        ⟨exampleStore, .fail .itemNotFound⟩ ∧
    ∃ r, (proposeSwap exampleStore "B" ⟨"X", none, true, some 75, none⟩ "s1"
        "2024-02-01").response = .ok r :=
  ⟨(proposeSwap_validation_order exampleStore "B" ⟨"W", none, true, some 500, none⟩ "s1"
      "2024-02-01" ⟨"B", "Bob", 200, 0⟩ (by decide)).1 .itemNotFound (by decide),
    (proposeSwap_validation_order exampleStore "B" ⟨"X", none, true, some 75, none⟩ "s1"
      "2024-02-01" ⟨"B", "Bob", 200, 0⟩ (by decide)).2.mp (by decide)⟩

/-! ## C7: the record created by `proposeSwap` -/

/-- C7 (as stated, refuted): B supplies `pointsOffered: 0` for X (valuation 75); the proposal
succeeds and the record carries 75 points, not the supplied 0. -/
theorem c7_counterexample :
    (proposeSwap exampleStore "B" ⟨"X", none, true, some 0, none⟩ "s1" "2024-02-01").response =
        .ok (mkPointsSwap "s1" "B" "X" 75) ∧
    (mkPointsSwap "s1" "B" "X" 75).pointsOffered ≠ 0 := by
  decide

/-- C7 (amended): a successful `proposeSwap` appends the created record as the last element
of the ledger (earlier records, users and items untouched); the record has status `pending`;
its `pointsOffered` is the supplied value whenever a non-zero value was supplied, and the
target item's valuation when none, or 0, was supplied. -/
theorem proposeSwap_created_record (s : Store) (userId : String) (b : SwapBody)
    (newId today : String) (r : SwapRequest)
    (hok : (proposeSwap s userId b newId today).response = .ok r) :
    (proposeSwap s userId b newId today).store =
        { s with swapRequests := s.swapRequests ++ [r] } ∧
    r.status = "pending" ∧
    (∀ p, b.pointsOffered = some p → p ≠ 0 → r.pointsOffered = p) ∧
    (b.pointsOffered = none ∨ b.pointsOffered = some 0 →
      ∃ it, find (fun i => i.id == b.itemId) s.clothingItems = some it ∧
        r.pointsOffered = it.pointsValue) := by
  unfold proposeSwap at hok ⊢
  cases hit : find (fun i => i.id == b.itemId) s.clothingItems with
  | none => simp [hit] at hok
  | some it =>
    cases hav : it.isAvailable with
    | false => simp [hit, hav] at hok
    | true =>
      by_cases hown : it.uploaderId = userId
      · simp [hit, hav, hown] at hok
      · cases hu : find (fun u => u.id == userId) s.users with
        | none => simp [hit, hav, hown, hu] at hok
        | some u =>
          by_cases hd : b.usePoints = true ∧ u.points < orInt b.pointsOffered it.pointsValue
          · simp [hit, hav, hown, hu, hd] at hok
          · simp [hit, hav, hown, hu, hd] at hok
            subst hok
            refine ⟨by simp [hit, hav, hown, hu, hd], rfl, ?_, ?_⟩
            · intro p hp hp0
              simp [newSwapRequest, orInt, hp, hp0]
            · rintro (hp | hp) <;> simp [newSwapRequest, orInt, hp]

/-- C7 (witness): B offers 60 points for X in `exampleStore`; the record is appended with
status `pending` and 60 points. -/
theorem proposeSwap_created_record_witness :
    (proposeSwap exampleStore "B" ⟨"X", none, true, some 60, none⟩ "s1" "2024-02-01").store =
        { exampleStore with
          swapRequests := exampleStore.swapRequests ++ [mkPointsSwap "s1" "B" "X" 60] } ∧
    (mkPointsSwap "s1" "B" "X" 60).status = "pending" ∧
    (mkPointsSwap "s1" "B" "X" 60).pointsOffered = 60 :=
  have h := proposeSwap_created_record exampleStore "B" ⟨"X", none, true, some 60, none⟩ "s1"
    "2024-02-01" (mkPointsSwap "s1" "B" "X" 60) (by decide)
  ⟨h.1, h.2.1, h.2.2.1 60 rfl (by decide)⟩

/-! ## C8: decisions other than `accepted` -/

/-- C8: a successful `decideSwap` by the owner of the target item with a status other than
`accepted` leaves `users` and `clothingItems` as they were and changes the ledger only at the
position of the decided swap, where the record differs from the old one in `status` alone. -/
theorem decideSwap_other_status (s : Store) (userId swapId status : String) (sw : SwapRequest)
    (it : ClothingItem)
    (hsw : find (fun w => w.id == swapId) s.swapRequests = some sw)
    (hit : find (fun i => i.id == sw.itemId) s.clothingItems = some it)
    (hown : it.uploaderId = userId)
    (hst : status ≠ "accepted") :
    (decideSwap s userId swapId status).response = .ok { sw with status := status } ∧
    (decideSwap s userId swapId status).store.users = s.users ∧
    (decideSwap s userId swapId status).store.clothingItems = s.clothingItems ∧
    (decideSwap s userId swapId status).store.swapRequests.length = s.swapRequests.length ∧
    ∃ k, findIndex (fun w => w.id == swapId) s.swapRequests = some k ∧
      s.swapRequests[k]? = some sw ∧
      (decideSwap s userId swapId status).store.swapRequests[k]? =
        some { sw with status := status } ∧
      ∀ j, j ≠ k →
        (decideSwap s userId swapId status).store.swapRequests[j]? = s.swapRequests[j]? := by
  obtain ⟨k, hk, hg, _⟩ := find_spec _ _ _ hsw
  rw [decideSwap_by_owner s userId swapId status k sw it hk hg hit hown]
  have ha : afterAccept s sw it status = s := by
    simp [afterAccept, hst]
  refine ⟨rfl, ?_, ?_, ?_, k, hk, hg, ?_, ?_⟩
  · show (afterAccept s sw it status).users = _
    rw [ha]
  · show (afterAccept s sw it status).clothingItems = _
    rw [ha]
  · exact length_updateAt _ _ _
  · show (updateAt _ k s.swapRequests)[k]? = _
    rw [getElem?_updateAt, if_pos rfl, hg]
    rfl
  · intro j hj
    show (updateAt _ k s.swapRequests)[j]? = _
    rw [getElem?_updateAt, if_neg hj]

/-- C8 (witness): in `exampleProposed` the owner A declines B's proposal: only the status of
the swap record changes. -/
theorem decideSwap_other_status_witness :
    (decideSwap exampleProposed "A" "s1" "declined").response =
        .ok { mkPointsSwap "s1" "B" "X" 75 with status := "declined" } ∧
    (decideSwap exampleProposed "A" "s1" "declined").store.users = exampleProposed.users ∧
    (decideSwap exampleProposed "A" "s1" "declined").store.clothingItems =
        exampleProposed.clothingItems :=
  have h := decideSwap_other_status exampleProposed "A" "s1" "declined"
    (mkPointsSwap "s1" "B" "X" 75) (mkItem "X" "A" 75) (by decide) (by decide) (by decide)
    (by decide)
  ⟨h.1, h.2.1, h.2.2.1⟩

/-! ## C9: acceptance applies as a whole or not at all -/

/-- C9: in every store the server can reach, `decideSwap` with status `accepted` has no
partial-success mode.  If it reports a failure, users, items and ledger are exactly as
before.  If it reports success, the whole mutation has been applied: the recorded status is
`accepted`, the target item is unavailable, the listed offered item is unavailable when an
offered item id is specified, and for a points swap requester and owner both have a user
record and both balance changes and both counter increments have been made. -/
theorem decideSwap_accept_all_or_nothing (s : Store) (hreach : Reachable s)
    (userId swapId : String) :
    (∀ e, (decideSwap s userId swapId "accepted").response = .fail e →
      (decideSwap s userId swapId "accepted").store = s) ∧
    (∀ w, (decideSwap s userId swapId "accepted").response = .ok w →
      w.status = "accepted" ∧
      find (fun x => x.id == swapId) (decideSwap s userId swapId "accepted").store.swapRequests =
        some w ∧
      (∃ it, find (fun i => i.id == w.itemId) s.clothingItems = some it ∧
        it.uploaderId = userId ∧
        find (fun i => i.id == w.itemId)
            (decideSwap s userId swapId "accepted").store.clothingItems =
          some { it with isAvailable := false }) ∧
      (truthy w.offeredItemId = true →
        ∀ x, find (fun i => some i.id == w.offeredItemId) s.clothingItems = some x →
          find (fun i => some i.id == w.offeredItemId)
              (decideSwap s userId swapId "accepted").store.clothingItems =
            some { x with isAvailable := false }) ∧
      (w.usePoints = true →
        ∃ r o, find (fun u => u.id == w.requesterId) s.users = some r ∧
          find (fun u => u.id == userId) s.users = some o ∧
          find (fun u => u.id == w.requesterId)
              (decideSwap s userId swapId "accepted").store.users =
            some { r with points := r.points - w.pointsOffered,
                          swapCount := r.swapCount + 1 } ∧
          find (fun u => u.id == userId)
              (decideSwap s userId swapId "accepted").store.users =
            some { o with points := o.points + w.pointsOffered,
                          swapCount := o.swapCount + 1 })) := by
  cases hk : findIndex (fun w => w.id == swapId) s.swapRequests with
  | none =>
    have hd : decideSwap s userId swapId "accepted" = ⟨s, .fail .swapNotFound⟩ := by
      simp [decideSwap, hk]
    rw [hd]
    exact ⟨fun _ _ => rfl, fun w hw => by cases hw⟩
  | some k =>
    obtain ⟨sw, hg, _, hsw⟩ := findIndex_spec _ _ _ hk
    cases hit : find (fun i => i.id == sw.itemId) s.clothingItems with
    | none =>
      have hd : decideSwap s userId swapId "accepted" = ⟨s, .fail .serverError⟩ := by
        simp [decideSwap, hk, hg, hit]
      rw [hd]
      exact ⟨fun _ _ => rfl, fun w hw => by cases hw⟩
    | some it =>
      by_cases hown : it.uploaderId = userId
      · obtain ⟨hresp, hu, hi, hledger, htarget⟩ :=
          decideSwap_accept_store s userId swapId sw it hsw hit hown
        refine ⟨fun e he => ?_, fun w hw => ?_⟩
        · rw [hresp] at he
          cases he
        · rw [hresp] at hw
          cases hw
          refine ⟨rfl, hledger, ⟨it, hit, hown, htarget⟩, ?_, ?_⟩
          · intro ht x hx
            rw [hi]
            exact find_markOffered_markItem_offered _ _ _ ht hx
          · intro hpts
            obtain ⟨⟨r, hr⟩, ⟨o, ho⟩, hne⟩ :=
              swap_parties s (reachable_invariant hreach) swapId sw it hsw hit
            have hpts' : sw.usePoints = true := hpts
            rw [if_pos hpts'] at hu
            obtain ⟨h1, h2⟩ := transferPoints_distinct s.users sw it r o hr ho hne
            rw [← hu] at h1 h2
            subst hown
            exact ⟨r, o, hr, ho, h1, h2⟩
      · have hd : decideSwap s userId swapId "accepted" = ⟨s, .fail .notAuthorized⟩ := by
          simp [decideSwap, hk, hg, hit, hown]
        rw [hd]
        exact ⟨fun _ _ => rfl, fun w hw => by cases hw⟩

/-- C9 (witness): at the reachable store `bootProposed` the requester `u2` is refused and
the store is as before; the owner `1` succeeds, the recorded status is `accepted` and the
record is the one found in the ledger afterwards. -/
theorem decideSwap_accept_all_or_nothing_witness :
    (decideSwap bootProposed "u2" "s1" "accepted").store = bootProposed ∧
    ({ mkPointsSwap "s1" "u2" "1" 75 with status := "accepted" } : SwapRequest).status =
        "accepted" ∧
    find (fun x => x.id == "s1")
        (decideSwap bootProposed "1" "s1" "accepted").store.swapRequests =
      some { mkPointsSwap "s1" "u2" "1" 75 with status := "accepted" } :=
  ⟨(decideSwap_accept_all_or_nothing bootProposed bootProposed_reachable "u2" "s1").1
      .notAuthorized (by decide),
    ((decideSwap_accept_all_or_nothing bootProposed bootProposed_reachable "1" "s1").2
      { mkPointsSwap "s1" "u2" "1" 75 with status := "accepted" } (by decide)).1,
    ((decideSwap_accept_all_or_nothing bootProposed bootProposed_reachable "1" "s1").2
      { mkPointsSwap "s1" "u2" "1" 75 with status := "accepted" } (by decide)).2.1⟩

/-! ## C10: point balances along sequences of operations -/

/-- C10 (the code at the failing input): from `seedStore`, where all balances are
non-negative, the four requests of `overspend` are all served successfully (both proposals
pass the sufficiency check against the balance 100, both acceptances go through) and leave
the registered user with balance 100 - 75 - 90 = -65. -/
theorem overspend_negative_balance :
    balancesNonneg seedStore ∧
    (run seedStore overspend).users =
        [⟨"1", "Admin User", 1165, 2⟩, ⟨"u2", "Bob", -65, 2⟩] ∧
    balance (run seedStore overspend).users "u2" = -65 ∧
    ¬ balancesNonneg (run seedStore overspend) := by
  decide

/-! ## Lemmas on `listItems` -/

theorem includesChars_iff (t : List Char) :
    ∀ s : List Char, includesChars t s = true ↔ t <:+: s := by
  intro s
  induction s with
  | nil => simp [includesChars, List.isEmpty_iff]
  | cons c cs ih =>
    simp only [includesChars, Bool.or_eq_true, ih, List.infix_cons_iff,
      List.isPrefixOf_iff_prefix]

theorem includes_iff (s t : String) : includes s t = true ↔ t.data <:+: s.data :=
  includesChars_iff t.data s.data

theorem matchesSearch_iff (toLowerCase : String → String) (t : String) (item : ClothingItem) :
    matchesSearch toLowerCase t item = true ↔
      ((toLowerCase t).data <:+: (toLowerCase item.title).data ∨
       (toLowerCase t).data <:+: (toLowerCase item.description).data ∨
       ∃ tag ∈ item.tags, (toLowerCase t).data <:+: (toLowerCase tag).data) := by
  simp [matchesSearch, includes_iff, or_assoc]

theorem filter_three {α : Type} (p1 p2 p3 : α → Bool) (xs : List α) :
    (((xs.filter p1).filter p2).filter p3) = xs.filter (fun x => p1 x && (p2 x && p3 x)) := by
  rw [List.filter_filter, List.filter_filter]
  congr 1
  funext x
  generalize p1 x = a
  generalize p2 x = b
  generalize p3 x = c
  cases a <;> cases b <;> cases c <;> rfl

theorem listItems_eq_filter (toLowerCase : String → String) (items : List ClothingItem)
    (q : ItemQuery) : listItems toLowerCase items q = items.filter (passesAll toLowerCase q) := by
  obtain ⟨c, t, a⟩ := q
  unfold passesAll
  rw [← filter_three]
  unfold listItems
  cases hc : truthy c <;> cases t with
  | none => cases a <;> simp
  | some t =>
    by_cases ht : t = ""
    · cases a <;> simp [ht]
    · cases a <;> simp [ht]

theorem passesAll_iff (toLowerCase : String → String) (hlow : toLowerCase "" = "")
    (q : ItemQuery) (item : ClothingItem) :
    passesAll toLowerCase q item = true ↔
      satisfiesFilters toLowerCase (ignoreEmptyCategory q) item := by
  obtain ⟨c, t, a⟩ := q
  unfold passesAll satisfiesFilters ignoreEmptyCategory
  simp only [Bool.and_eq_true]
  refine and_congr ?_ (and_congr ?_ ?_)
  · cases c with
    | none => simp [truthy, orNull]
    | some c =>
      by_cases hc : c = ""
      · simp [truthy, orNull, hc]
      · simp [truthy, orNull, hc]
  · cases t with
    | none => simp
    | some t =>
      by_cases ht : t = ""
      · simp [ht, hlow]
      · simp [ht, matchesSearch_iff]
  · cases a with
    | none => simp
    | some a =>
      cases item.isApproved <;> by_cases ha : a = "true" <;> simp [ha]

theorem ignoreEmptyCategory_eq (q : ItemQuery) (h : q.category ≠ some "") :
    ignoreEmptyCategory q = q := by
  obtain ⟨c, t, a⟩ := q
  cases c with
  | none => rfl
  | some c =>
    have hc : c ≠ "" := fun e => h (by rw [e])
    simp [ignoreEmptyCategory, orNull, truthy, hc]

/-! ## C11: the listing query -/

/-- C11 (as stated, refuted): the query `?category=` supplies the empty string as category.
No item of `searchCatalog` has the category `''`, yet all three items are listed: none of
them satisfies the supplied category filter. -/
theorem c11_counterexample :
    (listItems asciiLower searchCatalog ⟨some "", none, none⟩).map (·.id) = ["1", "2", "5"] ∧
    (∀ item ∈ searchCatalog, item.category ≠ "") ∧
    ∀ item ∈ listItems asciiLower searchCatalog ⟨some "", none, none⟩,
      ¬ satisfiesFilters asciiLower ⟨some "", none, none⟩ item := by
  refine ⟨by decide, by decide, ?_⟩
  intro item hmem hsat
  have hcat : item.category = "" := hsat.1 "" rfl
  have hall : ∀ i ∈ listItems asciiLower searchCatalog ⟨some "", none, none⟩,
      i.category ≠ "" := by decide
  exact hall item hmem hcat

/-- C11 (amended): for every catalogue and every query, `listItems` returns exactly the
items that satisfy all supplied filters (category equality, case-insensitive substring match
of the search text in title, description or a tag, approval flag), in catalogue order, where
a category given as the empty string counts as not supplied: the result is the catalogue
filtered by a predicate that holds exactly for those items, hence an order-preserving
sublist.  Whenever the category is not the empty string this is the claim as written.  In
particular a search for `denim` lists only items whose title, description or tags contain
it, whatever the category and approval filters are. -/
theorem listItems_selects (toLowerCase : String → String) (hlow : toLowerCase "" = "")
    (items : List ClothingItem) (q : ItemQuery) :
    (∃ p : ClothingItem → Bool,
      (∀ item, p item = true ↔ satisfiesFilters toLowerCase (ignoreEmptyCategory q) item) ∧
      listItems toLowerCase items q = items.filter p) ∧
    (listItems toLowerCase items q).Sublist items ∧
    (∀ item, item ∈ listItems toLowerCase items q ↔
      item ∈ items ∧ satisfiesFilters toLowerCase (ignoreEmptyCategory q) item) ∧
    (q.category ≠ some "" →
      ∀ item, item ∈ listItems toLowerCase items q ↔
        item ∈ items ∧ satisfiesFilters toLowerCase q item) ∧
    (∀ c a item, item ∈ listItems toLowerCase items ⟨c, some "denim", a⟩ →
      (toLowerCase "denim").data <:+: (toLowerCase item.title).data ∨
      (toLowerCase "denim").data <:+: (toLowerCase item.description).data ∨
      ∃ tag ∈ item.tags, (toLowerCase "denim").data <:+: (toLowerCase tag).data) := by
  have hmem : ∀ (q : ItemQuery) (item : ClothingItem),
      item ∈ listItems toLowerCase items q ↔
        item ∈ items ∧ satisfiesFilters toLowerCase (ignoreEmptyCategory q) item := by
    intro q item
    rw [listItems_eq_filter, List.mem_filter, passesAll_iff toLowerCase hlow]
  refine ⟨⟨passesAll toLowerCase q, passesAll_iff toLowerCase hlow q,
    listItems_eq_filter toLowerCase items q⟩, ?_, hmem q, ?_, ?_⟩
  · rw [listItems_eq_filter]
    exact List.filter_sublist items
  · intro hq item
    have := hmem q item
    rwa [ignoreEmptyCategory_eq q hq] at this
  · intro c a item h
    exact ((hmem _ item).mp h).2.2.1 "denim" rfl

/-- C11 (witness): with ASCII lower-casing, in `searchCatalog` the search text `Denim` lists
the jacket and the jeans (whose description spells it `DENIM`), in catalogue order; under the
category filter `bottoms` only the jeans remain; and every listed item satisfies the filters
of the query as written. -/
theorem listItems_selects_witness :
    asciiLower "" = "" ∧
    (listItems asciiLower searchCatalog ⟨none, some "Denim", none⟩).map (·.id) = ["1", "5"] ∧
    (listItems asciiLower searchCatalog ⟨some "bottoms", some "Denim", none⟩).map (·.id) =
        ["5"] ∧
    ∀ item, item ∈ listItems asciiLower searchCatalog ⟨some "bottoms", some "Denim", none⟩ →
      satisfiesFilters asciiLower ⟨some "bottoms", some "Denim", none⟩ item :=
  ⟨by decide, by decide, by decide, fun item h =>
    (((listItems_selects asciiLower (by decide) searchCatalog
      ⟨some "bottoms", some "Denim", none⟩).2.2.2.1 (by decide) item).mp h).2⟩

/-! ## C12: outcomes of `decideSwap` -/

/-- C12 (the code at the failing input): `deletedStore` is reached from the seed data by a
successful proposal for listing `1` followed by the owner's successful deletion of that
listing; the swap record is still in the ledger.  Deciding it, by the former owner or by the
requester, answers `500 Server error`, which is neither the updated swap, nor
`Swap request not found`, nor `Not authorized`. -/
theorem deleted_item_server_error :
    (proposeSwap seedStore "u2" ⟨"1", none, true, none, none⟩ "s1" "2024-02-01").response =
        .ok (mkPointsSwap "s1" "u2" "1" 75) ∧
    (deleteItem
      (proposeSwap seedStore "u2" ⟨"1", none, true, none, none⟩ "s1" "2024-02-01").store
      "1" true "1").2 = none ∧
    (find (fun w => w.id == "s1") deletedStore.swapRequests).map (·.itemId) = some "1" ∧
    find (fun i => i.id == "1") deletedStore.clothingItems = none ∧
    decideSwap deletedStore "1" "s1" "accepted" = ⟨deletedStore, .fail .serverError⟩ ∧
    decideSwap deletedStore "u2" "s1" "declined" = ⟨deletedStore, .fail .serverError⟩ := by
  decide

/-! ## C13: points transfer and offered-item flip -/

/-- C13 (as stated, refuted): B asks for X offering 75 points and the item Y in one request
(`usePoints` true and an offered item id); the request is recorded as such, and when A
accepts it the points move (A 175, B 125, both counters 1) and the offered item Y is marked
unavailable as well. -/
theorem c13_counterexample :
    (proposeSwap comboStore "B" comboBody "s1" "2024-02-01").response = .ok comboSwap ∧
    comboSwap.usePoints = true ∧
    comboSwap.offeredItemId = some "Y" ∧
    (decideSwap comboProposed "A" "s1" "accepted").response =
        .ok { comboSwap with status := "accepted" } ∧
    (decideSwap comboProposed "A" "s1" "accepted").store.users =
        [⟨"A", "Ann", 175, 1⟩, ⟨"B", "Bob", 125, 1⟩] ∧
    find (fun i => i.id == "Y") comboProposed.clothingItems = some (mkItem "Y" "B" 60) ∧
    find (fun i => i.id == "Y") (decideSwap comboProposed "A" "s1" "accepted").store.clothingItems =
        some (markUnavailable (mkItem "Y" "B" 60)) := by
  decide

/-- C13 (amended): on acceptance the two settlement effects are governed independently, the
points transfer by `usePoints` and the offered-item flip by the presence of an offered item
id.  With `usePoints` false no user record changes.  With `usePoints` true, requester and
owner having a record and being different users, the transfer is applied.  With an offered
item id the listed offered item becomes unavailable, whatever `usePoints` is; without one
only the target item's position of the catalogue changes. -/
theorem decideSwap_accept_semantics (s : Store) (userId swapId : String) (sw : SwapRequest)
    (it : ClothingItem)
    (hsw : find (fun w => w.id == swapId) s.swapRequests = some sw)
    (hit : find (fun i => i.id == sw.itemId) s.clothingItems = some it)
    (hown : it.uploaderId = userId) :
    (sw.usePoints = false → (decideSwap s userId swapId "accepted").store.users = s.users) ∧
    (sw.usePoints = true → sw.requesterId ≠ it.uploaderId →
      ∀ r o, find (fun u => u.id == sw.requesterId) s.users = some r →
        find (fun u => u.id == it.uploaderId) s.users = some o →
        find (fun u => u.id == sw.requesterId)
            (decideSwap s userId swapId "accepted").store.users =
          some { r with points := r.points - sw.pointsOffered,
                        swapCount := r.swapCount + 1 } ∧
        find (fun u => u.id == it.uploaderId)
            (decideSwap s userId swapId "accepted").store.users =
          some { o with points := o.points + sw.pointsOffered,
                        swapCount := o.swapCount + 1 }) ∧
    (truthy sw.offeredItemId = true →
      ∀ x, find (fun i => some i.id == sw.offeredItemId) s.clothingItems = some x →
        find (fun i => some i.id == sw.offeredItemId)
            (decideSwap s userId swapId "accepted").store.clothingItems =
          some { x with isAvailable := false }) ∧
    (truthy sw.offeredItemId = false →
      ∀ k, findIndex (fun i => i.id == sw.itemId) s.clothingItems ≠ some k →
        (decideSwap s userId swapId "accepted").store.clothingItems[k]? =
          s.clothingItems[k]?) := by
  obtain ⟨_, hu, hi, _, _⟩ := decideSwap_accept_store s userId swapId sw it hsw hit hown
  refine ⟨?_, ?_, ?_, ?_⟩
  · intro h
    rw [hu]
    simp [h]
  · intro hpts hne r o hr ho
    rw [hu, if_pos hpts]
    exact transferPoints_distinct s.users sw it r o hr ho hne
  · intro ht x hx
    rw [hi]
    exact find_markOffered_markItem_offered _ _ _ ht hx
  · intro ht k hk
    rw [hi, getElem?_markOffered_markItem, if_neg]
    rintro (h | ⟨h, _⟩)
    · exact hk h
    · rw [ht] at h
      cases h

/-- C13 (witness): in `itemSwapStore` A accepts B's item-for-item swap (`usePoints` false,
offered item Y): no user record changes and Y becomes unavailable. -/
theorem decideSwap_accept_semantics_witness :
    (decideSwap itemSwapStore "A" "s2" "accepted").store.users = itemSwapStore.users ∧
    find (fun i => some i.id == some "Y")
        (decideSwap itemSwapStore "A" "s2" "accepted").store.clothingItems =
      some (markUnavailable (mkItem "Y" "B" 60)) :=
  have h := decideSwap_accept_semantics itemSwapStore "A" "s2"
    { mkPointsSwap "s2" "B" "X" 75 with
        offeredItemId := some "Y", offeredItemTitle := some "Vintage Denim Jacket",
        usePoints := false }
    (mkItem "X" "A" 75) (by decide) (by decide) (by decide)
  ⟨h.1 (by decide), h.2.2.1 (by decide) (mkItem "Y" "B" 60) (by decide)⟩

/-! ## C14: accepting an accepted swap again -/

/-- C14: there is no guard on the swap's current status.  In every store the server can
reach, for every points swap whose requester and owner have a user record, a second
`decideSwap(id, ownerId, 'accepted')` on the already accepted swap succeeds and applies the
transfer again: after the two acceptances the requester's balance is the original one minus
`2 * pointsOffered`, the owner's is the original one plus `2 * pointsOffered`, and both swap
counters have grown by 2. -/
theorem decideSwap_accept_twice (s : Store) (hreach : Reachable s) (swapId : String)
    (sw : SwapRequest) (it : ClothingItem) (r o : User)
    (hsw : find (fun w => w.id == swapId) s.swapRequests = some sw)
    (hpts : sw.usePoints = true)
    (hit : find (fun i => i.id == sw.itemId) s.clothingItems = some it)
    (hr : find (fun u => u.id == sw.requesterId) s.users = some r)
    (ho : find (fun u => u.id == it.uploaderId) s.users = some o) :
    (decideSwap s it.uploaderId swapId "accepted").response =
        .ok { sw with status := "accepted" } ∧
    (decideSwap (decideSwap s it.uploaderId swapId "accepted").store it.uploaderId swapId
        "accepted").response = .ok { sw with status := "accepted" } ∧
    find (fun u => u.id == sw.requesterId)
        (decideSwap (decideSwap s it.uploaderId swapId "accepted").store it.uploaderId swapId
          "accepted").store.users =
      some { r with points := r.points - 2 * sw.pointsOffered,
                    swapCount := r.swapCount + 2 } ∧
    find (fun u => u.id == it.uploaderId)
        (decideSwap (decideSwap s it.uploaderId swapId "accepted").store it.uploaderId swapId
          "accepted").store.users =
      some { o with points := o.points + 2 * sw.pointsOffered,
                    swapCount := o.swapCount + 2 } := by
  have hne : sw.requesterId ≠ it.uploaderId :=
    (swap_parties s (reachable_invariant hreach) swapId sw it hsw hit).2.2
  obtain ⟨hresp1, hu1, _, hsw1, hit1⟩ :=
    decideSwap_accept_store s it.uploaderId swapId sw it hsw hit rfl
  rw [if_pos hpts] at hu1
  obtain ⟨hr1, ho1⟩ := transferPoints_distinct s.users sw it r o hr ho hne
  rw [← hu1] at hr1 ho1
  obtain ⟨hresp2, hu2, _, _, _⟩ :=
    decideSwap_accept_store (decideSwap s it.uploaderId swapId "accepted").store
      it.uploaderId swapId { sw with status := "accepted" } (markUnavailable it) hsw1 hit1 rfl
  have hpts2 : ({ sw with status := "accepted" } : SwapRequest).usePoints = true := hpts
  rw [if_pos hpts2] at hu2
  obtain ⟨hr2, ho2⟩ := transferPoints_distinct
    (decideSwap s it.uploaderId swapId "accepted").store.users
    { sw with status := "accepted" } (markUnavailable it) _ _ hr1 ho1 hne
  rw [← hu2] at hr2 ho2
  refine ⟨hresp1, hresp2, ?_, ?_⟩
  · refine Eq.trans hr2 ?_
    simp only [Option.some.injEq, User.mk.injEq, true_and]
    constructor <;> ring
  · refine Eq.trans ho2 ?_
    simp only [Option.some.injEq, User.mk.injEq, true_and]
    constructor <;> ring

/-- C14 (witness): at the reachable store `bootProposed` the admin accepts the 75 points of
`u2` twice: `u2` ends with 100 - 150 = -50 points, the admin with 1000 + 150 = 1150, both
with swap counter 2. -/
theorem decideSwap_accept_twice_witness :
    find (fun u => u.id == "u2")
        (decideSwap (decideSwap bootProposed "1" "s1" "accepted").store "1" "s1"
          "accepted").store.users = some ⟨"u2", "Bob", -50, 2⟩ ∧
    find (fun u => u.id == "1")
        (decideSwap (decideSwap bootProposed "1" "s1" "accepted").store "1" "s1"
          "accepted").store.users = some ⟨"1", "Admin User", 1150, 2⟩ :=
  have h := decideSwap_accept_twice bootProposed bootProposed_reachable "s1"
    (mkPointsSwap "s1" "u2" "1" 75) bootJacket ⟨"u2", "Bob", 100, 0⟩ ⟨"1", "Admin User", 1000, 0⟩
    (by decide) (by decide) (by decide) (by decide) (by decide)
  ⟨h.2.2.1, h.2.2.2⟩

end ReWear
